import Mathlib

/-!
# ST7735S panel driver (esp_lcd_st7735s.c)

A shallow embedding of the driver in
`components/espressif__esp_lcd_st7735s/esp_lcd_st7735s.c`.

* The handle `st7735s_panel_t` is a record; every driver function takes the
  handle and the outside world and returns the C return code together with the
  new handle and the new world.
* The outside world (`World`) is the chronological trace of the calls the
  driver makes into ESP-IDF (transport writes, GPIO calls, delays) together
  with the stream of return codes the transport will give to upcoming writes.
* C `int` is `Int` (signed overflow is undefined in C and outside the model),
  `uint8_t` is `Nat` reduced `% 256` where a value is stored, `size_t` is
  `Nat` reduced `% 2 ^ 32`.
* Logging calls (`ESP_LOGx`) have no effect on state or trace and are left out,
  together with the local flag `is_cmd_overwritten` that only feeds a log line.
-/

namespace St7735s

/-! ## ESP-IDF constants (esp_err.h, esp_lcd_panel_commands.h, lcd_types.h) -/

/-- The ESP-IDF error code type, a C `int`. -/
abbrev esp_err_t := Int

def ESP_OK : esp_err_t := 0
def ESP_ERR_NO_MEM : esp_err_t := 0x101
def ESP_ERR_INVALID_ARG : esp_err_t := 0x102
def ESP_ERR_NOT_SUPPORTED : esp_err_t := 0x106

def LCD_CMD_SWRESET : Nat := 0x01
def LCD_CMD_SLPOUT : Nat := 0x11
def LCD_CMD_INVOFF : Nat := 0x20
def LCD_CMD_INVON : Nat := 0x21
def LCD_CMD_DISPOFF : Nat := 0x28
def LCD_CMD_DISPON : Nat := 0x29
def LCD_CMD_CASET : Nat := 0x2A
def LCD_CMD_RASET : Nat := 0x2B
def LCD_CMD_RAMWR : Nat := 0x2C
def LCD_CMD_MADCTL : Nat := 0x36
def LCD_CMD_COLMOD : Nat := 0x3A

def LCD_CMD_BGR_BIT : Nat := 1 <<< 3
def LCD_CMD_MV_BIT : Nat := 1 <<< 5
def LCD_CMD_MX_BIT : Nat := 1 <<< 6
def LCD_CMD_MY_BIT : Nat := 1 <<< 7

def LCD_RGB_ENDIAN_RGB : Int := 0
def LCD_RGB_ENDIAN_BGR : Int := 1

/-! ## Macros of esp_lcd_st7735s.h -/

/-- The macros the driver takes from its own header `esp_lcd_st7735s.h`. The
header is not among the sources, so their values are parameters of the model:
the two fixed panel offsets, the delay marker and the command codes used by
the built-in table. -/
structure Header where
  COLSTART : Int
  ROWSTART : Int
  TFT_INIT_DELAY : Nat
  ST7735_SWRESET : Nat
  ST7735_SLPOUT : Nat
  ST7735_FRMCTR1 : Nat
  ST7735_FRMCTR2 : Nat
  ST7735_FRMCTR3 : Nat
  ST7735_INVCTR : Nat
  ST7735_PWCTR1 : Nat
  ST7735_PWCTR2 : Nat
  ST7735_PWCTR3 : Nat
  ST7735_PWCTR4 : Nat
  ST7735_PWCTR5 : Nat
  ST7735_VMCTR1 : Nat
  ST7735_INVON : Nat
  ST7735_COLMOD : Nat
  ST7735_GMCTRP1 : Nat
  ST7735_GMCTRN1 : Nat
  ST7735_NORON : Nat
  ST7735_DISPON : Nat

/-! ## Data model -/

/-- Conversion of a C `int` to `uint8_t`. -/
def u8 (x : Int) : Nat := (x % 256).toNat

/-- Conversion of a C `int` to `size_t` (32 bits on the ESP32 family). -/
def size_t_of_int (x : Int) : Nat := (x % 2 ^ 32).toNat

/-- The statement `madctl_val |= bit` on the `uint8_t` shadow. -/
def u8_set (v bit : Nat) : Nat := (v ||| bit) % 256

/-- The statement `madctl_val &= ~bit` on the `uint8_t` shadow: the complement
of `bit`, cut to eight bits, is `0xFF ^ bit`. -/
def u8_clear (v bit : Nat) : Nat := (v &&& (0xFF ^^^ bit)) % 256

/-- One entry of an init table: `lcd_init_cmd_t`. The array `data[16]` is given
by its initializer list; elements the list does not reach are zero, so
`data[k]` is `data.getD k 0`. -/
structure lcd_init_cmd_t where
  cmd : Nat
  data : List Nat
  data_bytes : Nat
  deriving DecidableEq, Repr

/-- The driver state `st7735s_panel_t`. The fields `base` (the table of
operations) and the transport handle are not state of the model: the
operations are the functions below and the transport is the `World`. The
pointer `init_cmds` is `none` for NULL and otherwise the array it points to,
read as the loop of `panel_st7735s_init` reads it: as `lcd_init_cmd_t` entries. -/
structure st7735s_panel_t where
  reset_gpio_num : Int
  reset_level : Bool
  x_gap : Int
  y_gap : Int
  fb_bits_per_pixel : Nat
  madctl_val : Nat
  colmod_val : Nat
  init_cmds : Option (List lcd_init_cmd_t)
  init_cmds_size : Nat
  deriving DecidableEq, Repr

/-- The vendor part of the device configuration, as `create` reads it. -/
structure st7735s_vendor_config_t where
  init_cmds : Option (List lcd_init_cmd_t)
  init_cmds_size : Nat
  deriving DecidableEq, Repr

/-- The fields of `esp_lcd_panel_dev_config_t` that the driver reads. -/
structure esp_lcd_panel_dev_config_t where
  reset_gpio_num : Int
  rgb_endian : Int
  bits_per_pixel : Nat
  reset_active_high : Bool
  vendor_config : Option st7735s_vendor_config_t
  deriving DecidableEq, Repr

/-- A call of the driver into ESP-IDF. A transport write records the command,
the parameter buffer passed (`none` for NULL) and the size passed. -/
inductive Event where
  | tx_param (lcd_cmd : Nat) (param : Option (List Nat)) (param_size : Nat)
  | tx_color (lcd_cmd : Nat) (color : List Nat) (color_size : Nat)
  | gpio_config (pin_bit_mask : Nat)
  | gpio_reset_pin (gpio_num : Int)
  | gpio_set_level (gpio_num : Int) (level : Bool)
  | vTaskDelay_ms (ms : Nat)
  deriving DecidableEq, Repr

/-- The world outside the driver: the calls made so far, oldest first, and the
return codes the transport gives to the writes still to come (`tx_ret 0` is
the return code of the next write). -/
structure World where
  trace : List Event
  tx_ret : Nat → esp_err_t

/-- The transport call `esp_lcd_panel_io_tx_param`. -/
def esp_lcd_panel_io_tx_param (w : World) (lcd_cmd : Nat) (param : Option (List Nat))
    (param_size : Nat) : esp_err_t × World :=
  (w.tx_ret 0,
   { trace := w.trace ++ [Event.tx_param lcd_cmd param param_size],
     tx_ret := fun k => w.tx_ret (k + 1) })

/-- The transport call `esp_lcd_panel_io_tx_color`. -/
def esp_lcd_panel_io_tx_color (w : World) (lcd_cmd : Nat) (color : List Nat)
    (color_size : Nat) : esp_err_t × World :=
  (w.tx_ret 0,
   { trace := w.trace ++ [Event.tx_color lcd_cmd color color_size],
     tx_ret := fun k => w.tx_ret (k + 1) })

/-- Any other ESP-IDF call: it is recorded in the trace. -/
def emit (w : World) (e : Event) : World :=
  { w with trace := w.trace ++ [e] }

/-! ## esp_lcd_new_panel_st7735s -/

/-- The handle right after `calloc`: every field zero. -/
def calloc_panel : st7735s_panel_t :=
  { reset_gpio_num := 0, reset_level := false, x_gap := 0, y_gap := 0,
    fb_bits_per_pixel := 0, madctl_val := 0, colmod_val := 0,
    init_cmds := none, init_cmds_size := 0 }

/-- The label `err:` of `esp_lcd_new_panel_st7735s` once the handle is
allocated: release the reset pin if one is configured, free the handle,
return `ret`. -/
def new_panel_err (cfg : esp_lcd_panel_dev_config_t) (ret : esp_err_t) (evs : List Event) :
    esp_err_t × Option st7735s_panel_t × List Event :=
  (ret, none,
   if cfg.reset_gpio_num ≥ 0 then evs ++ [Event.gpio_reset_pin cfg.reset_gpio_num] else evs)

/-- The function `esp_lcd_new_panel_st7735s`. `io_nonnull` and `ret_panel_nonnull`
say whether the two pointers are non-NULL, `panel_dev_config` is `none` for
NULL; `calloc_ok` and `gpio_config_ret` are the outcomes of `calloc` and of
`gpio_config`. The result is the return code, the handle stored through
`ret_panel` (if any) and the GPIO calls made. -/
def esp_lcd_new_panel_st7735s (io_nonnull : Bool)
    (panel_dev_config : Option esp_lcd_panel_dev_config_t) (ret_panel_nonnull : Bool)
    (calloc_ok : Bool) (gpio_config_ret : esp_err_t) :
    esp_err_t × Option st7735s_panel_t × List Event :=
  match panel_dev_config with
  | none => (ESP_ERR_INVALID_ARG, none, [])
  | some cfg =>
    if !(io_nonnull && ret_panel_nonnull) then (ESP_ERR_INVALID_ARG, none, [])
    else if !calloc_ok then (ESP_ERR_NO_MEM, none, [])
    else
      let st := calloc_panel
      let evs : List Event :=
        if cfg.reset_gpio_num ≥ 0 then
          [Event.gpio_config ((1 <<< cfg.reset_gpio_num.toNat) % 2 ^ 64)]
        else []
      if cfg.reset_gpio_num ≥ 0 ∧ gpio_config_ret ≠ ESP_OK then
        new_panel_err cfg gpio_config_ret evs
      else
        let madctl : Option Nat :=
          if cfg.rgb_endian = LCD_RGB_ENDIAN_RGB then some 0
          else if cfg.rgb_endian = LCD_RGB_ENDIAN_BGR then
            some (u8_set st.madctl_val LCD_CMD_BGR_BIT)
          else none
        match madctl with
        | none => new_panel_err cfg ESP_ERR_NOT_SUPPORTED evs
        | some m =>
          let st := { st with madctl_val := m }
          let fmt : Option (Nat × Nat) :=
            if cfg.bits_per_pixel = 16 then some (0x55, 16)
            else if cfg.bits_per_pixel = 18 then some (0x66, 24)
            else none
          match fmt with
          | none => new_panel_err cfg ESP_ERR_NOT_SUPPORTED evs
          | some (colmod, bpp) =>
            let st := { st with colmod_val := colmod, fb_bits_per_pixel := bpp }
            let st := { st with reset_gpio_num := cfg.reset_gpio_num,
                                reset_level := cfg.reset_active_high }
            let st :=
              match cfg.vendor_config with
              | some vc => { st with init_cmds := vc.init_cmds,
                                     init_cmds_size := vc.init_cmds_size % 2 ^ 16 }
              | none => st
            (ESP_OK, some st, evs)

/-! ## panel_st7735s_reset -/

/-- The function `panel_st7735s_reset`. -/
def panel_st7735s_reset (p : st7735s_panel_t) (w : World) :
    esp_err_t × st7735s_panel_t × World :=
  if p.reset_gpio_num ≥ 0 then
    let w := emit w (Event.gpio_set_level p.reset_gpio_num p.reset_level)
    let w := emit w (Event.vTaskDelay_ms 10)
    let w := emit w (Event.gpio_set_level p.reset_gpio_num (!p.reset_level))
    let w := emit w (Event.vTaskDelay_ms 10)
    (ESP_OK, p, w)
  else
    let r := esp_lcd_panel_io_tx_param w LCD_CMD_SWRESET none 0
    if r.1 ≠ ESP_OK then (r.1, p, r.2)
    else
      let w := emit r.2 (Event.vTaskDelay_ms 20)
      (ESP_OK, p, w)

/-! ## panel_st7735s_init -/

/-- The built-in table `vendor_specific_init_default`, entry by entry as in the
source; `cmd` and `data_bytes` are `uint8_t` fields. -/
def vendor_specific_init_default (h : Header) : List lcd_init_cmd_t :=
  [ { cmd := h.ST7735_SWRESET % 256, data := [0], data_bytes := 0x80 },
    { cmd := h.ST7735_SLPOUT % 256, data := [0], data_bytes := 0x80 },
    { cmd := h.ST7735_FRMCTR1 % 256, data := [0x05, 0x3A, 0x3A], data_bytes := 3 },
    { cmd := h.ST7735_FRMCTR2 % 256, data := [0x05, 0x3A, 0x3A], data_bytes := 3 },
    { cmd := h.ST7735_FRMCTR3 % 256, data := [0x05, 0x3A, 0x3A, 0x05, 0x3A, 0x3A],
      data_bytes := 6 },
    { cmd := h.ST7735_INVCTR % 256, data := [0x03], data_bytes := 1 },
    { cmd := h.ST7735_PWCTR1 % 256, data := [0x62, 0x02, 0x04], data_bytes := 3 },
    { cmd := h.ST7735_PWCTR2 % 256, data := [0xC0], data_bytes := 1 },
    { cmd := h.ST7735_PWCTR3 % 256, data := [0x0D, 0x00], data_bytes := 2 },
    { cmd := h.ST7735_PWCTR4 % 256, data := [0x8D, 0x6A], data_bytes := 2 },
    { cmd := h.ST7735_PWCTR5 % 256, data := [0x8D, 0xEE], data_bytes := 2 },
    { cmd := h.ST7735_VMCTR1 % 256, data := [0x0E], data_bytes := 1 },
    { cmd := h.ST7735_INVON % 256, data := [0], data_bytes := 0 },
    { cmd := h.ST7735_COLMOD % 256, data := [0x05], data_bytes := 1 },
    { cmd := h.ST7735_GMCTRP1 % 256,
      data := [0x10, 0x0E, 0x02, 0x03, 0x0E, 0x07, 0x02, 0x07,
               0x0A, 0x12, 0x27, 0x37, 0x00, 0x0D, 0x0E, 0x10],
      data_bytes := 16 },
    { cmd := h.ST7735_GMCTRN1 % 256,
      data := [0x10, 0x0E, 0x03, 0x03, 0x0F, 0x06, 0x02, 0x08,
               0x0A, 0x13, 0x26, 0x36, 0x00, 0x0D, 0x0E, 0x10],
      data_bytes := 16 },
    { cmd := h.ST7735_NORON % 256, data := [0], data_bytes := h.TFT_INIT_DELAY % 256 },
    { cmd := h.ST7735_DISPON % 256, data := [0], data_bytes := h.TFT_INIT_DELAY % 256 },
    { cmd := 0, data := [0], data_bytes := 0xff } ]

/-- The body of the `for` loop of `panel_st7735s_init` for the entry
`init_cmds[i]`: the `switch` on the command code, then the transport write,
whose return code is dropped. -/
def init_entry (e : lcd_init_cmd_t) (s : st7735s_panel_t × World) :
    st7735s_panel_t × World :=
  let p :=
    if e.cmd = LCD_CMD_MADCTL then { s.1 with madctl_val := e.data.getD 0 0 }
    else if e.cmd = LCD_CMD_COLMOD then { s.1 with colmod_val := e.data.getD 0 0 }
    else s.1
  (p, (esp_lcd_panel_io_tx_param s.2 e.cmd (some e.data) e.data_bytes).2)

/-- The loop `for (int i = 0; i < init_cmds_size; i++)`, by the number of
iterations still to run. Reading `init_cmds[i]` past the end of the array has
no defined result (`none`). -/
def init_loop (init_cmds : List lcd_init_cmd_t) :
    Nat → Nat → st7735s_panel_t × World → Option (st7735s_panel_t × World)
  | 0, _, s => some s
  | n + 1, i, s =>
    match init_cmds.get? i with
    | none => none
    | some e => init_loop init_cmds n (i + 1) (init_entry e s)

/-- The function `panel_st7735s_init`. -/
def panel_st7735s_init (h : Header) (p : st7735s_panel_t) (w : World) :
    Option (esp_err_t × st7735s_panel_t × World) :=
  let r := esp_lcd_panel_io_tx_param w LCD_CMD_SLPOUT none 0
  if r.1 ≠ ESP_OK then some (r.1, p, r.2)
  else
    let w := emit r.2 (Event.vTaskDelay_ms 100)
    let r := esp_lcd_panel_io_tx_param w LCD_CMD_MADCTL (some [p.madctl_val]) 1
    if r.1 ≠ ESP_OK then some (r.1, p, r.2)
    else
      let r := esp_lcd_panel_io_tx_param r.2 LCD_CMD_COLMOD (some [p.colmod_val]) 1
      if r.1 ≠ ESP_OK then some (r.1, p, r.2)
      else
        let tbl : List lcd_init_cmd_t × Nat :=
          match p.init_cmds with
          | some cmds => (cmds, p.init_cmds_size)
          | none => (vendor_specific_init_default h, (vendor_specific_init_default h).length)
        match init_loop tbl.1 tbl.2 0 (p, r.2) with
        | none => none
        | some s => some (ESP_OK, s.1, s.2)

/-! ## panel_st7735s_draw_bitmap -/

/-- The four parameter bytes of a CASET / RASET write for the adjusted bounds
`a_start`, `a_end` and the fixed constant `c` (COLSTART or ROWSTART). -/
def window_bytes (a_start a_end c : Int) : List Nat :=
  [ u8 (Int.land (a_start >>> 8) 0xFF),
    u8 (Int.land (a_start + c) 0xFF),
    u8 (Int.land ((a_end - 1) >>> 8) 0xFF),
    u8 (Int.land (a_end - 1 + c) 0xFF) ]

/-- The function `panel_st7735s_draw_bitmap`. A failed `assert` aborts the
program: no result (`none`). -/
def panel_st7735s_draw_bitmap (h : Header) (p : st7735s_panel_t) (w : World)
    (x_start y_start x_end y_end : Int) (color_data : List Nat) :
    Option (esp_err_t × st7735s_panel_t × World) :=
  if x_start < x_end ∧ y_start < y_end then
    let x_start := x_start + p.x_gap
    let x_end := x_end + p.x_gap
    let y_start := y_start + p.y_gap
    let y_end := y_end + p.y_gap
    let w := (esp_lcd_panel_io_tx_param w LCD_CMD_CASET
      (some (window_bytes x_start x_end h.COLSTART)) 4).2
    let w := (esp_lcd_panel_io_tx_param w LCD_CMD_RASET
      (some (window_bytes y_start y_end h.ROWSTART)) 4).2
    let len := size_t_of_int
      (Int.tdiv ((x_end - x_start) * (y_end - y_start) * (p.fb_bits_per_pixel : Int)) 8)
    let w := (esp_lcd_panel_io_tx_color w LCD_CMD_RAMWR color_data len).2
    some (ESP_OK, p, w)
  else none

/-! ## The setters -/

/-- The function `panel_st7735s_invert_color`. -/
def panel_st7735s_invert_color (p : st7735s_panel_t) (w : World) (invert_color_data : Bool) :
    esp_err_t × st7735s_panel_t × World :=
  let command := if invert_color_data then LCD_CMD_INVON else LCD_CMD_INVOFF
  let r := esp_lcd_panel_io_tx_param w command none 0
  if r.1 ≠ ESP_OK then (r.1, p, r.2) else (ESP_OK, p, r.2)

/-- The function `panel_st7735s_mirror`. -/
def panel_st7735s_mirror (p : st7735s_panel_t) (w : World) (mirror_x mirror_y : Bool) :
    esp_err_t × st7735s_panel_t × World :=
  let p :=
    if mirror_x then { p with madctl_val := u8_set p.madctl_val LCD_CMD_MX_BIT }
    else { p with madctl_val := u8_clear p.madctl_val LCD_CMD_MX_BIT }
  let p :=
    if mirror_y then { p with madctl_val := u8_set p.madctl_val LCD_CMD_MY_BIT }
    else { p with madctl_val := u8_clear p.madctl_val LCD_CMD_MY_BIT }
  let r := esp_lcd_panel_io_tx_param w LCD_CMD_MADCTL (some [p.madctl_val]) 1
  if r.1 ≠ ESP_OK then (r.1, p, r.2) else (ESP_OK, p, r.2)

/-- The function `panel_st7735s_swap_xy`. -/
def panel_st7735s_swap_xy (p : st7735s_panel_t) (w : World) (swap_axes : Bool) :
    esp_err_t × st7735s_panel_t × World :=
  let p :=
    if swap_axes then { p with madctl_val := u8_set p.madctl_val LCD_CMD_MV_BIT }
    else { p with madctl_val := u8_clear p.madctl_val LCD_CMD_MV_BIT }
  let r := esp_lcd_panel_io_tx_param w LCD_CMD_MADCTL (some [p.madctl_val]) 1
  if r.1 ≠ ESP_OK then (r.1, p, r.2) else (ESP_OK, p, r.2)

/-- The function `panel_st7735s_set_gap`. -/
def panel_st7735s_set_gap (p : st7735s_panel_t) (w : World) (x_gap y_gap : Int) :
    esp_err_t × st7735s_panel_t × World :=
  (ESP_OK, { p with x_gap := x_gap, y_gap := y_gap }, w)

/-- The function `panel_st7735s_disp_on_off` (ESP-IDF 5 branch: the argument
is used as given). -/
def panel_st7735s_disp_on_off (p : st7735s_panel_t) (w : World) (on_off : Bool) :
    esp_err_t × st7735s_panel_t × World :=
  let command := if on_off then LCD_CMD_DISPON else LCD_CMD_DISPOFF
  let r := esp_lcd_panel_io_tx_param w command none 0
  if r.1 ≠ ESP_OK then (r.1, p, r.2) else (ESP_OK, p, r.2)

/-! ## Sequences of orientation calls -/

/-- A call of one of the two orientation setters. -/
inductive OrientCall where
  | set_mirror (mirror_x mirror_y : Bool)
  | set_swap_axes (swap_axes : Bool)
  deriving DecidableEq, Repr

/-- One orientation call on a handle and world; the return code is dropped. -/
def orient_step (c : OrientCall) (s : st7735s_panel_t × World) : st7735s_panel_t × World :=
  match c with
  | OrientCall.set_mirror mx my => (panel_st7735s_mirror s.1 s.2 mx my).2
  | OrientCall.set_swap_axes sw => (panel_st7735s_swap_xy s.1 s.2 sw).2

/-- A finite sequence of orientation calls, first call first. -/
def run_orient : List OrientCall → st7735s_panel_t × World → st7735s_panel_t × World
  | [], s => s
  | c :: cs, s => run_orient cs (orient_step c s)

/-- The arguments of the most recent `set_mirror` call of a sequence. -/
def last_mirror : List OrientCall → Option (Bool × Bool)
  | [] => none
  | OrientCall.set_mirror mx my :: cs => (last_mirror cs).orElse (fun _ => some (mx, my))
  | OrientCall.set_swap_axes _ :: cs => last_mirror cs

/-- The argument of the most recent `set_swap_axes` call of a sequence. -/
def last_swap : List OrientCall → Option Bool
  | [] => none
  | OrientCall.set_swap_axes sw :: cs => (last_swap cs).orElse (fun _ => some sw)
  | OrientCall.set_mirror _ _ :: cs => last_swap cs

/-! ## Reading a trace and an init table -/

/-- The transport write the loop of `panel_st7735s_init` makes for one entry. -/
def entry_event (e : lcd_init_cmd_t) : Event :=
  Event.tx_param e.cmd (some e.data) e.data_bytes

/-- The entries the loop of `panel_st7735s_init` visits on a handle: the first
`init_cmds_size` entries of the custom table, or the whole built-in table. -/
def init_entries (h : Header) (p : st7735s_panel_t) : List lcd_init_cmd_t :=
  match p.init_cmds with
  | some cmds => cmds.take p.init_cmds_size
  | none => vendor_specific_init_default h

/-- The loop body of `panel_st7735s_init` run over a list of entries in order. -/
def init_fold (es : List lcd_init_cmd_t) (s : st7735s_panel_t × World) :
    st7735s_panel_t × World :=
  es.foldl (fun s e => init_entry e s) s

/-- The world right before the loop of `panel_st7735s_init` when its first
three writes were accepted. -/
def after_preamble (p : st7735s_panel_t) (w : World) : World :=
  { trace := w.trace ++
      [ Event.tx_param LCD_CMD_SLPOUT none 0,
        Event.vTaskDelay_ms 100,
        Event.tx_param LCD_CMD_MADCTL (some [p.madctl_val]) 1,
        Event.tx_param LCD_CMD_COLMOD (some [p.colmod_val]) 1 ],
    tx_ret := fun k => w.tx_ret (k + 3) }

/-- A custom table holds at least `init_cmds_size` entries. -/
def table_ok (p : st7735s_panel_t) : Prop :=
  ∀ cmds, p.init_cmds = some cmds → p.init_cmds_size ≤ cmds.length

/-- The events before the loop of `panel_st7735s_init` when its first three
writes are made: sleep-out, the 100 ms delay, the two shadow writes. -/
def init_preamble (p : st7735s_panel_t) : List Event :=
  [ Event.tx_param LCD_CMD_SLPOUT none 0,
    Event.vTaskDelay_ms 100,
    Event.tx_param LCD_CMD_MADCTL (some [p.madctl_val]) 1,
    Event.tx_param LCD_CMD_COLMOD (some [p.colmod_val]) 1 ]

/-- Whether an event is a control write (`esp_lcd_panel_io_tx_param`). -/
def is_control_write : Event → Bool
  | Event.tx_param _ _ _ => true
  | _ => false

/-- Whether an event is a transport write of either kind. -/
def is_transport_write : Event → Bool
  | Event.tx_param _ _ _ => true
  | Event.tx_color _ _ _ => true
  | _ => false

/-- Whether an event is a control write to the orientation register. -/
def is_madctl_write : Event → Bool
  | Event.tx_param c _ _ => decide (c = LCD_CMD_MADCTL)
  | _ => false

/-- The first parameter byte a control write carries, if it carries one. -/
def first_param_byte : Event → Option Nat
  | Event.tx_param _ (some d) n => if 1 ≤ n then some (d.getD 0 0) else none
  | _ => none

/-- The shadow value `m` agrees with the trace `t`: if `t` holds a control
write to the orientation register, the last such write carries `m` as its
first parameter byte. -/
def shadow_matches_last_write (m : Nat) (t : List Event) : Prop :=
  ∀ ev, (t.filter is_madctl_write).getLast? = some ev → first_param_byte ev = some m

/-- The size argument of a control write. -/
def control_write_size : Event → Option Nat
  | Event.tx_param _ _ n => some n
  | _ => none

/-- The 16-bit value whose big-endian bytes are `hi`, `lo`. -/
def be16 (hi lo : Nat) : Nat := hi * 256 + lo

/-! ## Sequences of operations -/

/-- A call of one of the operations of the panel. -/
inductive Op where
  | reset
  | init
  | draw_bitmap (x_start y_start x_end y_end : Int) (color_data : List Nat)
  | invert_color (invert_color_data : Bool)
  | mirror (mirror_x mirror_y : Bool)
  | swap_xy (swap_axes : Bool)
  | set_gap (x_gap y_gap : Int)
  | disp_on_off (on_off : Bool)
  deriving DecidableEq, Repr

/-- One operation on a handle and world; `none` where the operation has no
result. -/
def step (h : Header) (op : Op) (s : st7735s_panel_t × World) :
    Option (esp_err_t × st7735s_panel_t × World) :=
  match op with
  | Op.reset => some (panel_st7735s_reset s.1 s.2)
  | Op.init => panel_st7735s_init h s.1 s.2
  | Op.draw_bitmap xs ys xe ye c => panel_st7735s_draw_bitmap h s.1 s.2 xs ys xe ye c
  | Op.invert_color b => some (panel_st7735s_invert_color s.1 s.2 b)
  | Op.mirror mx my => some (panel_st7735s_mirror s.1 s.2 mx my)
  | Op.swap_xy sw => some (panel_st7735s_swap_xy s.1 s.2 sw)
  | Op.set_gap x y => some (panel_st7735s_set_gap s.1 s.2 x y)
  | Op.disp_on_off b => some (panel_st7735s_disp_on_off s.1 s.2 b)

/-- A finite sequence of operations, first operation first, whatever each one
returns. -/
def run (h : Header) : List Op → st7735s_panel_t × World → Option (st7735s_panel_t × World)
  | [], s => some s
  | op :: ops, s =>
    match step h op s with
    | none => none
    | some r => run h ops r.2

/-! ## Concrete inputs -/

/-- A header instance with the command codes of the ST7735S datasheet and the
offsets of a 0.96 inch 80x160 module. -/
def st7735s_header : Header :=
  { COLSTART := 26, ROWSTART := 1, TFT_INIT_DELAY := 0x80,
    ST7735_SWRESET := 0x01, ST7735_SLPOUT := 0x11,
    ST7735_FRMCTR1 := 0xB1, ST7735_FRMCTR2 := 0xB2, ST7735_FRMCTR3 := 0xB3,
    ST7735_INVCTR := 0xB4, ST7735_PWCTR1 := 0xC0, ST7735_PWCTR2 := 0xC1,
    ST7735_PWCTR3 := 0xC2, ST7735_PWCTR4 := 0xC3, ST7735_PWCTR5 := 0xC4,
    ST7735_VMCTR1 := 0xC5, ST7735_INVON := 0x21, ST7735_COLMOD := 0x3A,
    ST7735_GMCTRP1 := 0xE0, ST7735_GMCTRN1 := 0xE1, ST7735_NORON := 0x13,
    ST7735_DISPON := 0x29 }

/-- A configuration: no reset pin, RGB, 16 bits per pixel, no vendor part. -/
def cfg_rgb16 : esp_lcd_panel_dev_config_t :=
  { reset_gpio_num := -1, rgb_endian := LCD_RGB_ENDIAN_RGB, bits_per_pixel := 16,
    reset_active_high := false, vendor_config := none }

/-- The handle `create` builds from `cfg_rgb16`. -/
def panel_rgb16 : st7735s_panel_t :=
  { reset_gpio_num := -1, reset_level := false, x_gap := 0, y_gap := 0,
    fb_bits_per_pixel := 16, madctl_val := 0, colmod_val := 0x55,
    init_cmds := none, init_cmds_size := 0 }

/-- The handle `panel_rgb16` after `set_gap(2, 3)`. -/
def panel_gap : st7735s_panel_t := { panel_rgb16 with x_gap := 2, y_gap := 3 }

/-- A custom init table of four entries: colour mode, frame rate, orientation,
colour mode again. -/
def custom_table : List lcd_init_cmd_t :=
  [ { cmd := 0x3A, data := [0x05], data_bytes := 1 },
    { cmd := 0xB1, data := [0x01, 0x2C, 0x2D], data_bytes := 3 },
    { cmd := 0x36, data := [0xC8], data_bytes := 1 },
    { cmd := 0x3A, data := [0x06], data_bytes := 1 } ]

/-- The handle `panel_rgb16` with `custom_table` as its init table. -/
def panel_custom : st7735s_panel_t :=
  { panel_rgb16 with init_cmds := some custom_table, init_cmds_size := 4 }

/-- A world with an empty trace whose transport accepts the first three writes
and rejects every later one with return code `-1`. -/
def world_entries_fail : World :=
  { trace := [], tx_ret := fun k => if k < 3 then ESP_OK else -1 }

/-- Return codes of a transport that rejects its second, fifth and sixth
write with return code `-1` and accepts the others. -/
def tx_flaky (k : Nat) : esp_err_t := if k = 1 ∨ k = 4 ∨ k = 5 then -1 else ESP_OK

/-- A sequence of operations: an initialisation that fails at its orientation
write, a draw, a mirror call, a second initialisation, a swap call, a change
of gap, the two toggles and a reset. -/
def ops_sample : List Op :=
  [ Op.init, Op.draw_bitmap 0 0 2 2 [], Op.mirror true false, Op.init, Op.swap_xy true,
    Op.set_gap 1 1, Op.invert_color true, Op.disp_on_off true, Op.reset ]

/-- A world with an empty trace whose transport accepts every write. -/
def world_ok : World := { trace := [], tx_ret := fun _ => ESP_OK }

/-- A world with an empty trace whose transport rejects every write with
return code `-1` (ESP_FAIL). -/
def world_fail : World := { trace := [], tx_ret := fun _ => -1 }

/-- A handle with reset pin 5, active high. -/
def panel_pin : st7735s_panel_t :=
  { panel_rgb16 with reset_gpio_num := 5, reset_level := true }

/-- The handle `create` builds for BGR and 18 bits per pixel without reset pin
and without vendor part. -/
def panel_bgr18 : st7735s_panel_t :=
  { panel_rgb16 with fb_bits_per_pixel := 24, madctl_val := 8, colmod_val := 0x66 }

/-- A custom init table without orientation and colour-mode entries. -/
def plain_table : List lcd_init_cmd_t :=
  [ { cmd := 0xB1, data := [0x01, 0x2C, 0x2D], data_bytes := 3 },
    { cmd := 0xB4, data := [0x03], data_bytes := 1 } ]

/-- The handle `panel_gap` with `plain_table` as its init table. -/
def panel_plain : st7735s_panel_t :=
  { panel_gap with init_cmds := some plain_table, init_cmds_size := 2 }

/-- A world with an empty trace whose transport rejects its second write
(return code `-1`) and accepts the others. -/
def world_madctl_fail : World :=
  { trace := [], tx_ret := fun k => if k = 1 then -1 else ESP_OK }

/-- A world with an empty trace whose transport rejects its third write
(return code `-1`) and accepts the others. -/
def world_colmod_fail : World :=
  { trace := [], tx_ret := fun k => if k = 2 then -1 else ESP_OK }

/-! ## Theorems -/

/-! ### Bits of the orientation shadow -/

theorem testBit_u8_set (v k i : Nat) (hv : v < 256) (hk : k < 8) :
    (u8_set v (2 ^ k)).testBit i = if i = k then true else v.testBit i := by
  unfold u8_set
  have h256 : (256 : Nat) = 2 ^ 8 := by norm_num
  rw [h256, Nat.testBit_mod_two_pow, Nat.testBit_or, Nat.testBit_two_pow]
  by_cases hik : i = k
  · subst hik
    simp [hk]
  · have hki : ¬ k = i := fun h => hik h.symm
    simp only [hik, hki, decide_False, Bool.or_false, if_false]
    by_cases hi : i < 8
    · simp [hi]
    · have : v.testBit i = false := by
        apply Nat.testBit_lt_two_pow
        calc v < 2 ^ 8 := by omega
          _ ≤ 2 ^ i := Nat.pow_le_pow_right (by norm_num) (by omega)
      simp [this]

theorem testBit_u8_clear (v k i : Nat) (hv : v < 256) (hk : k < 8) :
    (u8_clear v (2 ^ k)).testBit i = if i = k then false else v.testBit i := by
  unfold u8_clear
  have h256 : (256 : Nat) = 2 ^ 8 := by norm_num
  have h255 : (0xFF : Nat) = 2 ^ 8 - 1 := by norm_num
  rw [h256, Nat.testBit_mod_two_pow, Nat.testBit_and, Nat.testBit_xor, h255,
    Nat.testBit_two_pow_sub_one, Nat.testBit_two_pow]
  by_cases hik : i = k
  · subst hik
    simp [hk]
  · have hki : ¬ k = i := fun h => hik h.symm
    simp only [hik, hki, decide_False, if_false]
    by_cases hi : i < 8
    · simp [hi]
    · have : v.testBit i = false := by
        apply Nat.testBit_lt_two_pow
        calc v < 2 ^ 8 := by omega
          _ ≤ 2 ^ i := Nat.pow_le_pow_right (by norm_num) (by omega)
      simp [this]

theorem u8_set_lt (v bit : Nat) : u8_set v bit < 256 := by
  unfold u8_set
  exact Nat.mod_lt _ (by norm_num)

theorem u8_clear_lt (v bit : Nat) : u8_clear v bit < 256 := by
  unfold u8_clear
  exact Nat.mod_lt _ (by norm_num)

theorem mirror_madctl (p : st7735s_panel_t) (w : World) (mx my : Bool) :
    (panel_st7735s_mirror p w mx my).2.1.madctl_val =
      (if my then u8_set (if mx then u8_set p.madctl_val (2 ^ 6) else u8_clear p.madctl_val (2 ^ 6))
          (2 ^ 7)
        else u8_clear (if mx then u8_set p.madctl_val (2 ^ 6) else u8_clear p.madctl_val (2 ^ 6))
          (2 ^ 7)) := by
  unfold panel_st7735s_mirror
  cases mx <;> cases my <;> simp [LCD_CMD_MX_BIT, LCD_CMD_MY_BIT] <;> split <;> rfl

theorem swap_xy_madctl (p : st7735s_panel_t) (w : World) (sw : Bool) :
    (panel_st7735s_swap_xy p w sw).2.1.madctl_val =
      (if sw then u8_set p.madctl_val (2 ^ 5) else u8_clear p.madctl_val (2 ^ 5)) := by
  unfold panel_st7735s_swap_xy
  cases sw <;> simp [LCD_CMD_MV_BIT] <;> split <;> rfl

theorem orient_step_lt (c : OrientCall) (s : st7735s_panel_t × World) :
    (orient_step c s).1.madctl_val < 256 := by
  cases c with
  | set_mirror mx my =>
    simp only [orient_step, mirror_madctl]
    split
    · exact u8_set_lt _ _
    · exact u8_clear_lt _ _
  | set_swap_axes sw =>
    simp only [orient_step, swap_xy_madctl]
    split
    · exact u8_set_lt _ _
    · exact u8_clear_lt _ _

theorem orient_step_mirror_testBit (s : st7735s_panel_t × World) (mx my : Bool) (i : Nat)
    (hv : s.1.madctl_val < 256) :
    (orient_step (OrientCall.set_mirror mx my) s).1.madctl_val.testBit i =
      if i = 6 then mx else if i = 7 then my else s.1.madctl_val.testBit i := by
  simp only [orient_step, mirror_madctl]
  cases mx <;> cases my <;>
    simp only [if_true, if_false, Bool.false_eq_true] <;>
    first
    | rw [testBit_u8_set _ _ _ (u8_set_lt _ _) (by norm_num),
        testBit_u8_set _ _ _ hv (by norm_num)]
    | rw [testBit_u8_set _ _ _ (u8_clear_lt _ _) (by norm_num),
        testBit_u8_clear _ _ _ hv (by norm_num)]
    | rw [testBit_u8_clear _ _ _ (u8_set_lt _ _) (by norm_num),
        testBit_u8_set _ _ _ hv (by norm_num)]
    | rw [testBit_u8_clear _ _ _ (u8_clear_lt _ _) (by norm_num),
        testBit_u8_clear _ _ _ hv (by norm_num)]
  all_goals
    by_cases h6 : i = 6
    · subst h6; simp
    · by_cases h7 : i = 7
      · subst h7; simp
      · simp [h6, h7]

theorem orient_step_swap_testBit (s : st7735s_panel_t × World) (sw : Bool) (i : Nat)
    (hv : s.1.madctl_val < 256) :
    (orient_step (OrientCall.set_swap_axes sw) s).1.madctl_val.testBit i =
      if i = 5 then sw else s.1.madctl_val.testBit i := by
  simp only [orient_step, swap_xy_madctl]
  cases sw
  · simp only [if_false, Bool.false_eq_true]
    rw [testBit_u8_clear _ _ _ hv (by norm_num)]
  · simp only [if_true]
    rw [testBit_u8_set _ _ _ hv (by norm_num)]

/-- The bit `i` of the orientation shadow after a sequence of orientation
calls, by bit position. -/
theorem run_orient_testBit (calls : List OrientCall) :
    ∀ (s : st7735s_panel_t × World), s.1.madctl_val < 256 → ∀ i : Nat,
      (run_orient calls s).1.madctl_val.testBit i =
        if i = 6 then ((last_mirror calls).map Prod.fst).getD (s.1.madctl_val.testBit 6)
        else if i = 7 then ((last_mirror calls).map Prod.snd).getD (s.1.madctl_val.testBit 7)
        else if i = 5 then (last_swap calls).getD (s.1.madctl_val.testBit 5)
        else s.1.madctl_val.testBit i := by
  induction calls with
  | nil =>
    intro s _ i
    simp only [run_orient, last_mirror, last_swap, Option.map_none', Option.getD_none]
    by_cases h6 : i = 6
    · simp [h6]
    · by_cases h7 : i = 7
      · simp [h7]
      · by_cases h5 : i = 5
        · simp [h5]
        · simp [h6, h7, h5]
  | cons c cs ih =>
    intro s hv i
    have hlt := orient_step_lt c s
    rw [run_orient, ih _ hlt i]
    cases c with
    | set_mirror mx my =>
      simp only [last_mirror, last_swap, orient_step_mirror_testBit s mx my _ hv]
      cases hlm : last_mirror cs <;> simp <;>
        by_cases h6 : i = 6 <;> by_cases h7 : i = 7 <;> by_cases h5 : i = 5 <;>
        simp [h6, h7, h5]
    | set_swap_axes sw =>
      simp only [last_mirror, last_swap, orient_step_swap_testBit s sw _ hv]
      cases hls : last_swap cs <;> simp <;>
        by_cases h6 : i = 6 <;> by_cases h7 : i = 7 <;> by_cases h5 : i = 5 <;>
        simp [h6, h7, h5]

theorem two_pow_eq_iff (i k : Nat) : 2 ^ i = 2 ^ k ↔ i = k :=
  ⟨fun h => Nat.pow_right_injective (le_refl 2) h, fun h => by rw [h]⟩

/-! ### C1 -/

/-- C1: `esp_lcd_new_panel_st7735s` called with non-NULL arguments and a
supported colour order (allocation and the reset-pin claim succeeding): for
bit depth 16 it returns ESP_OK with colour-mode shadow 0x55 and 16 frame-buffer
bits (2 bytes) per pixel; for bit depth 18 it returns ESP_OK with colour-mode
shadow 0x66 and 24 frame-buffer bits (3 bytes) per pixel; for every other bit
depth it returns ESP_ERR_NOT_SUPPORTED and no handle. -/
theorem C1_create_bit_depth (cfg : esp_lcd_panel_dev_config_t) (g : esp_err_t)
    (hcolor : cfg.rgb_endian = LCD_RGB_ENDIAN_RGB ∨ cfg.rgb_endian = LCD_RGB_ENDIAN_BGR)
    (hgpio : cfg.reset_gpio_num < 0 ∨ g = ESP_OK) :
    (cfg.bits_per_pixel = 16 →
      (esp_lcd_new_panel_st7735s true (some cfg) true true g).1 = ESP_OK ∧
      ∃ p, (esp_lcd_new_panel_st7735s true (some cfg) true true g).2.1 = some p ∧
        p.colmod_val = 0x55 ∧ p.fb_bits_per_pixel = 16 ∧ p.fb_bits_per_pixel / 8 = 2) ∧
    (cfg.bits_per_pixel = 18 →
      (esp_lcd_new_panel_st7735s true (some cfg) true true g).1 = ESP_OK ∧
      ∃ p, (esp_lcd_new_panel_st7735s true (some cfg) true true g).2.1 = some p ∧
        p.colmod_val = 0x66 ∧ p.fb_bits_per_pixel = 24 ∧ p.fb_bits_per_pixel / 8 = 3) ∧
    (cfg.bits_per_pixel ≠ 16 → cfg.bits_per_pixel ≠ 18 →
      (esp_lcd_new_panel_st7735s true (some cfg) true true g).1 = ESP_ERR_NOT_SUPPORTED ∧
      (esp_lcd_new_panel_st7735s true (some cfg) true true g).2.1 = none) := by
  have hg : ¬ (cfg.reset_gpio_num ≥ 0 ∧ g ≠ ESP_OK) := by
    rintro ⟨h1, h2⟩
    rcases hgpio with h | h
    · omega
    · exact h2 h
  refine ⟨?_, ?_, ?_⟩
  · intro h16
    rcases hcolor with hc | hc <;>
      cases hv : cfg.vendor_config <;>
      simp [esp_lcd_new_panel_st7735s, hg, hc, h16, hv, LCD_RGB_ENDIAN_RGB, LCD_RGB_ENDIAN_BGR]
  · intro h18
    rcases hcolor with hc | hc <;>
      cases hv : cfg.vendor_config <;>
      simp [esp_lcd_new_panel_st7735s, hg, hc, h18, hv, LCD_RGB_ENDIAN_RGB, LCD_RGB_ENDIAN_BGR]
  · intro h16 h18
    rcases hcolor with hc | hc <;>
      simp [esp_lcd_new_panel_st7735s, hg, hc, h16, h18, new_panel_err, LCD_RGB_ENDIAN_RGB,
        LCD_RGB_ENDIAN_BGR]

/-- C1 at `cfg_rgb16` and at its 18-bit and 24-bit variants. -/
theorem C1_create_bit_depth_witness :
    (cfg_rgb16.rgb_endian = LCD_RGB_ENDIAN_RGB ∨ cfg_rgb16.rgb_endian = LCD_RGB_ENDIAN_BGR) ∧
    (cfg_rgb16.reset_gpio_num < 0 ∨ (0 : esp_err_t) = ESP_OK) ∧
    cfg_rgb16.bits_per_pixel = 16 ∧
    (esp_lcd_new_panel_st7735s true (some cfg_rgb16) true true 0).1 = ESP_OK ∧
    (∃ p, (esp_lcd_new_panel_st7735s true (some cfg_rgb16) true true 0).2.1 = some p ∧
        p.colmod_val = 0x55 ∧ p.fb_bits_per_pixel = 16 ∧ p.fb_bits_per_pixel / 8 = 2) ∧
    esp_lcd_new_panel_st7735s true (some cfg_rgb16) true true 0 = (ESP_OK, some panel_rgb16, []) :=
  ⟨Or.inl rfl, Or.inl (by decide), rfl,
   ((C1_create_bit_depth cfg_rgb16 0 (Or.inl rfl) (Or.inl (by decide))).1 rfl).1,
   ((C1_create_bit_depth cfg_rgb16 0 (Or.inl rfl) (Or.inl (by decide))).1 rfl).2,
   by decide⟩

/-! ### C2 -/

/-- C2: for every handle (its shadow a `uint8_t`), every world (whatever the
transport returns) and every finite sequence of set_mirror / set_swap_axes
calls, bit `i` of the final orientation shadow is: for the mirror-X bit the
`mirror_x` argument of the most recent set_mirror call, for the mirror-Y bit
its `mirror_y` argument, for the swap-axes bit the argument of the most recent
set_swap_axes call, and in every other case (no such call, or any other bit,
the colour-order bit included) bit `i` of the initial shadow. -/
theorem C2_orientation_last_call_wins (p : st7735s_panel_t) (w : World)
    (calls : List OrientCall) (i : Nat) (hv : p.madctl_val < 256) :
    (run_orient calls (p, w)).1.madctl_val.testBit i =
      if 2 ^ i = LCD_CMD_MX_BIT then
        ((last_mirror calls).map Prod.fst).getD (p.madctl_val.testBit i)
      else if 2 ^ i = LCD_CMD_MY_BIT then
        ((last_mirror calls).map Prod.snd).getD (p.madctl_val.testBit i)
      else if 2 ^ i = LCD_CMD_MV_BIT then
        (last_swap calls).getD (p.madctl_val.testBit i)
      else p.madctl_val.testBit i := by
  have hx : LCD_CMD_MX_BIT = 2 ^ 6 := by decide
  have hy : LCD_CMD_MY_BIT = 2 ^ 7 := by decide
  have hs : LCD_CMD_MV_BIT = 2 ^ 5 := by decide
  rw [run_orient_testBit calls (p, w) hv i, hx, hy, hs]
  simp only [two_pow_eq_iff]
  by_cases h6 : i = 6
  · subst h6; simp
  · by_cases h7 : i = 7
    · subst h7; simp
    · by_cases h5 : i = 5
      · subst h5; simp
      · simp [h6, h7, h5]

/-- C2 on a failing transport: set_mirror(true, false), set_swap_axes(true),
set_mirror(false, false) from shadow 0 leaves the swap-axes bit set. -/
theorem C2_orientation_last_call_wins_witness :
    panel_rgb16.madctl_val < 256 ∧
    (run_orient [OrientCall.set_mirror true false, OrientCall.set_swap_axes true,
        OrientCall.set_mirror false false] (panel_rgb16, world_fail)).1.madctl_val.testBit 5
      = true ∧
    (run_orient [OrientCall.set_mirror true false, OrientCall.set_swap_axes true,
        OrientCall.set_mirror false false] (panel_rgb16, world_fail)).1.madctl_val
      = LCD_CMD_MV_BIT :=
  ⟨by decide,
   (C2_orientation_last_call_wins panel_rgb16 world_fail
      [OrientCall.set_mirror true false, OrientCall.set_swap_axes true,
        OrientCall.set_mirror false false] 5 (by decide)).trans (by decide),
   by decide⟩

/-! ### The window of a draw -/

theorem draw_bitmap_eq (h : Header) (p : st7735s_panel_t) (w : World)
    (xs ys xe ye : Int) (c : List Nat) (hx : xs < xe) (hy : ys < ye) :
    panel_st7735s_draw_bitmap h p w xs ys xe ye c =
      some (ESP_OK, p,
        { trace := w.trace ++
            [ Event.tx_param LCD_CMD_CASET
                (some (window_bytes (xs + p.x_gap) (xe + p.x_gap) h.COLSTART)) 4,
              Event.tx_param LCD_CMD_RASET
                (some (window_bytes (ys + p.y_gap) (ye + p.y_gap) h.ROWSTART)) 4,
              Event.tx_color LCD_CMD_RAMWR c
                (size_t_of_int (Int.tdiv ((xe - xs) * (ye - ys) * (p.fb_bits_per_pixel : Int)) 8)) ],
          tx_ret := fun k => w.tx_ret (k + 3) }) := by
  have e1 : xe + p.x_gap - (xs + p.x_gap) = xe - xs := by ring
  have e2 : ye + p.y_gap - (ys + p.y_gap) = ye - ys := by ring
  simp [panel_st7735s_draw_bitmap, hx, hy, esp_lcd_panel_io_tx_param,
    esp_lcd_panel_io_tx_color, e1, e2, List.append_assoc]

theorem pixel_len_eq (a b : Int) (k : Nat) (ha : 0 < a) (hb : 0 < b)
    (hov : a * b * ((8 * k : Nat) : Int) < 2 ^ 31) :
    size_t_of_int (Int.tdiv (a * b * ((8 * k : Nat) : Int)) 8) = (a * b).toNat * k := by
  have hab : 0 ≤ a * b := le_of_lt (mul_pos ha hb)
  have hk : (0 : Int) ≤ (k : Int) := Int.ofNat_nonneg k
  have hcast : ((8 * k : Nat) : Int) = (k : Int) * 8 := by push_cast; ring
  rw [hcast] at hov ⊢
  have hmul : a * b * ((k : Int) * 8) = a * b * (k : Int) * 8 := by ring
  rw [hmul, Int.mul_tdiv_cancel _ (by norm_num : (8 : Int) ≠ 0)]
  have hnn : 0 ≤ a * b * (k : Int) := mul_nonneg hab hk
  have hlt : a * b * (k : Int) < 2 ^ 32 := by
    have : a * b * (k : Int) ≤ a * b * ((k : Int) * 8) := by
      apply mul_le_mul_of_nonneg_left _ hab
      omega
    omega
  unfold size_t_of_int
  rw [Int.emod_eq_of_lt hnn hlt]
  have h1 : (a * b * (k : Int)).toNat = (a * b).toNat * k := by
    have := Int.toNat_of_nonneg hab
    apply Int.ofNat.inj
    simp only [Int.ofNat_eq_coe]
    rw [Int.toNat_of_nonneg hnn]
    push_cast
    rw [this]
  exact h1

/-! ### C3 -/

/-- C3: for every handle with 16 or 24 frame-buffer bits per pixel (depth 16
or 18 at creation), every gap, every transport and every rectangle with
`x_start < x_end`, `y_start < y_end` whose `int` product does not overflow,
`panel_st7735s_draw_bitmap` extends the trace by exactly three transport
writes, in this order: a CASET control write of 4 bytes, a RASET control write
of 4 bytes, a RAMWR pixel write; the pixel write has size
`(x_end - x_start) * (y_end - y_start) * bytes_per_pixel` with 2 bytes per pixel
for 16 bits and 3 for 24 bits, an expression in which the gap does not occur. -/
theorem C3_draw_three_writes (h : Header) (p : st7735s_panel_t) (w : World)
    (xs ys xe ye : Int) (c : List Nat) (hx : xs < xe) (hy : ys < ye)
    (hbpp : p.fb_bits_per_pixel = 16 ∨ p.fb_bits_per_pixel = 24)
    (hov : (xe - xs) * (ye - ys) * (p.fb_bits_per_pixel : Int) < 2 ^ 31) :
    ∃ w1 col row,
      panel_st7735s_draw_bitmap h p w xs ys xe ye c = some (ESP_OK, p, w1) ∧
      w1.trace = w.trace ++
        [ Event.tx_param LCD_CMD_CASET (some col) 4,
          Event.tx_param LCD_CMD_RASET (some row) 4,
          Event.tx_color LCD_CMD_RAMWR c
            (((xe - xs) * (ye - ys)).toNat * (if p.fb_bits_per_pixel = 16 then 2 else 3)) ] := by
  refine ⟨_, window_bytes (xs + p.x_gap) (xe + p.x_gap) h.COLSTART,
    window_bytes (ys + p.y_gap) (ye + p.y_gap) h.ROWSTART,
    draw_bitmap_eq h p w xs ys xe ye c hx hy, ?_⟩
  have ha : 0 < xe - xs := by omega
  have hb : 0 < ye - ys := by omega
  rcases hbpp with h16 | h24
  · rw [h16] at hov ⊢
    have := pixel_len_eq (xe - xs) (ye - ys) 2 ha hb (by simpa using hov)
    simp only [Nat.reduceMul, Nat.cast_ofNat] at this
    simp [this]
  · rw [h24] at hov ⊢
    have := pixel_len_eq (xe - xs) (ye - ys) 3 ha hb (by simpa using hov)
    simp only [Nat.reduceMul, Nat.cast_ofNat] at this
    simp [this]

/-- C3 at the rectangle (10, 10, 20, 20) on a 16-bit handle with gap (2, 3):
three writes, the pixel write of 10 * 10 * 2 = 200 bytes. -/
theorem C3_draw_three_writes_witness :
    ((10 : Int) < 20) ∧
    (panel_gap.fb_bits_per_pixel = 16 ∨ panel_gap.fb_bits_per_pixel = 24) ∧
    ((20 - 10) * (20 - 10) * (panel_gap.fb_bits_per_pixel : Int) < 2 ^ 31) ∧
    (∃ w1 col row,
      panel_st7735s_draw_bitmap st7735s_header panel_gap world_fail 10 10 20 20 [] =
        some (ESP_OK, panel_gap, w1) ∧
      w1.trace = world_fail.trace ++
        [ Event.tx_param LCD_CMD_CASET (some col) 4,
          Event.tx_param LCD_CMD_RASET (some row) 4,
          Event.tx_color LCD_CMD_RAMWR []
            ((((20 : Int) - 10) * (20 - 10)).toNat *
              (if panel_gap.fb_bits_per_pixel = 16 then 2 else 3)) ]) ∧
    ((((20 : Int) - 10) * (20 - 10)).toNat *
      (if panel_gap.fb_bits_per_pixel = 16 then 2 else 3) = 200) :=
  ⟨by decide, Or.inl rfl, by decide,
   C3_draw_three_writes st7735s_header panel_gap world_fail 10 10 20 20 []
     (by decide) (by decide) (Or.inl rfl) (by decide),
   by decide⟩

/-! ### C4 -/

/-- C4: for every handle, transport and rectangle with `x_start < x_end`,
`y_start < y_end`, with `X0 = x_start + x_gap` and `X1 = x_end + x_gap - 1`, the
CASET write of `panel_st7735s_draw_bitmap` carries exactly the four bytes
`(X0 >> 8) & 0xFF`, `(X0 + COLSTART) & 0xFF`, `(X1 >> 8) & 0xFF`,
`(X1 + COLSTART) & 0xFF`, and the RASET write the same construction over y with
`y_gap` and ROWSTART: the gap is added to the raw coordinate first, the fixed
constant is added in the low byte only. -/
theorem C4_draw_window_bytes (h : Header) (p : st7735s_panel_t) (w : World)
    (xs ys xe ye : Int) (c : List Nat) (hx : xs < xe) (hy : ys < ye) :
    ∃ w1 len,
      panel_st7735s_draw_bitmap h p w xs ys xe ye c = some (ESP_OK, p, w1) ∧
      w1.trace = w.trace ++
        [ Event.tx_param LCD_CMD_CASET
            (some [ u8 (Int.land ((xs + p.x_gap) >>> 8) 0xFF),
                    u8 (Int.land ((xs + p.x_gap) + h.COLSTART) 0xFF),
                    u8 (Int.land ((xe + p.x_gap - 1) >>> 8) 0xFF),
                    u8 (Int.land ((xe + p.x_gap - 1) + h.COLSTART) 0xFF) ]) 4,
          Event.tx_param LCD_CMD_RASET
            (some [ u8 (Int.land ((ys + p.y_gap) >>> 8) 0xFF),
                    u8 (Int.land ((ys + p.y_gap) + h.ROWSTART) 0xFF),
                    u8 (Int.land ((ye + p.y_gap - 1) >>> 8) 0xFF),
                    u8 (Int.land ((ye + p.y_gap - 1) + h.ROWSTART) 0xFF) ]) 4,
          Event.tx_color LCD_CMD_RAMWR c len ] :=
  ⟨_, _, draw_bitmap_eq h p w xs ys xe ye c hx hy, rfl⟩

/-- C4 at the rectangle (10, 10, 20, 20) with gap (2, 3), COLSTART 26 and
ROWSTART 1: columns 12 .. 21 give the bytes 0, 38, 0, 47 and rows 13 .. 22 the
bytes 0, 14, 0, 23. -/
theorem C4_draw_window_bytes_witness :
    ((10 : Int) < 20) ∧
    (∃ w1 len,
      panel_st7735s_draw_bitmap st7735s_header panel_gap world_ok 10 10 20 20 [] =
        some (ESP_OK, panel_gap, w1) ∧
      w1.trace = world_ok.trace ++
        [ Event.tx_param LCD_CMD_CASET
            (some [ u8 (Int.land ((10 + panel_gap.x_gap) >>> 8) 0xFF),
                    u8 (Int.land ((10 + panel_gap.x_gap) + st7735s_header.COLSTART) 0xFF),
                    u8 (Int.land ((20 + panel_gap.x_gap - 1) >>> 8) 0xFF),
                    u8 (Int.land ((20 + panel_gap.x_gap - 1) + st7735s_header.COLSTART) 0xFF) ]) 4,
          Event.tx_param LCD_CMD_RASET
            (some [ u8 (Int.land ((10 + panel_gap.y_gap) >>> 8) 0xFF),
                    u8 (Int.land ((10 + panel_gap.y_gap) + st7735s_header.ROWSTART) 0xFF),
                    u8 (Int.land ((20 + panel_gap.y_gap - 1) >>> 8) 0xFF),
                    u8 (Int.land ((20 + panel_gap.y_gap - 1) + st7735s_header.ROWSTART) 0xFF) ]) 4,
          Event.tx_color LCD_CMD_RAMWR [] len ]) ∧
    (panel_st7735s_draw_bitmap st7735s_header panel_gap world_ok 10 10 20 20 []).map
        (fun r => r.2.2.trace) =
      some [ Event.tx_param LCD_CMD_CASET (some [0, 38, 0, 47]) 4,
             Event.tx_param LCD_CMD_RASET (some [0, 14, 0, 23]) 4,
             Event.tx_color LCD_CMD_RAMWR [] 200 ] :=
  ⟨by decide,
   C4_draw_window_bytes st7735s_header panel_gap world_ok 10 10 20 20 [] (by decide) (by decide),
   by decide⟩

/-! ### C6 -/

/-- C6, the code at a failing transport: with every transport write rejected
(return code -1), `panel_st7735s_draw_bitmap` on the rectangle (0, 0, 1, 1)
still returns ESP_OK and still makes the RAMWR pixel write after the rejected
CASET and RASET writes. -/
theorem C6_draw_returns_ok_on_rejected_window_writes :
    world_fail.tx_ret 0 ≠ ESP_OK ∧ world_fail.tx_ret 1 ≠ ESP_OK ∧
    (panel_st7735s_draw_bitmap st7735s_header panel_rgb16 world_fail 0 0 1 1 [0xAB, 0xCD]).map
        (fun r => (r.1, r.2.2.trace)) =
      some (ESP_OK,
        [ Event.tx_param LCD_CMD_CASET (some [0, 26, 0, 26]) 4,
          Event.tx_param LCD_CMD_RASET (some [0, 1, 0, 1]) 4,
          Event.tx_color LCD_CMD_RAMWR [0xAB, 0xCD] 2 ]) := by
  decide

/-! ### The loop of initialisation -/

theorem init_fold_nil (s : st7735s_panel_t × World) : init_fold [] s = s := rfl

theorem init_fold_cons (e : lcd_init_cmd_t) (es : List lcd_init_cmd_t)
    (s : st7735s_panel_t × World) :
    init_fold (e :: es) s = init_fold es (init_entry e s) := rfl

theorem init_loop_eq (cmds : List lcd_init_cmd_t) :
    ∀ (n i : Nat) (s : st7735s_panel_t × World), i + n ≤ cmds.length →
      init_loop cmds n i s = some (init_fold ((cmds.drop i).take n) s) := by
  intro n
  induction n with
  | zero =>
    intro i s _
    simp [init_loop, init_fold]
  | succ n ih =>
    intro i s hle
    have hi : i < cmds.length := by omega
    rw [init_loop, List.get?_eq_getElem?, List.getElem?_eq_getElem hi]
    simp only
    rw [ih (i + 1) _ (by omega), List.drop_eq_getElem_cons hi, List.take_succ_cons,
      init_fold_cons]

theorem init_entry_trace (e : lcd_init_cmd_t) (s : st7735s_panel_t × World) :
    (init_entry e s).2.trace = s.2.trace ++ [entry_event e] := rfl

theorem init_fold_trace (es : List lcd_init_cmd_t) :
    ∀ s : st7735s_panel_t × World,
      (init_fold es s).2.trace = s.2.trace ++ es.map entry_event := by
  induction es with
  | nil => intro s; simp [init_fold_nil]
  | cons e es ih =>
    intro s
    rw [init_fold_cons, ih, init_entry_trace]
    simp

theorem madctl_ne_colmod : LCD_CMD_MADCTL ≠ LCD_CMD_COLMOD := by decide

theorem init_entry_madctl (e : lcd_init_cmd_t) (s : st7735s_panel_t × World) :
    (init_entry e s).1.madctl_val =
      if e.cmd = LCD_CMD_MADCTL then e.data.getD 0 0 else s.1.madctl_val := by
  unfold init_entry
  by_cases h1 : e.cmd = LCD_CMD_MADCTL
  · simp [h1]
  · by_cases h2 : e.cmd = LCD_CMD_COLMOD
    · simp [h2, madctl_ne_colmod.symm]
    · simp [h1, h2]

theorem init_entry_colmod (e : lcd_init_cmd_t) (s : st7735s_panel_t × World) :
    (init_entry e s).1.colmod_val =
      if e.cmd = LCD_CMD_COLMOD then e.data.getD 0 0 else s.1.colmod_val := by
  unfold init_entry
  by_cases h1 : e.cmd = LCD_CMD_MADCTL
  · simp [h1, madctl_ne_colmod]
  · by_cases h2 : e.cmd = LCD_CMD_COLMOD
    · simp [h2, madctl_ne_colmod.symm]
    · simp [h1, h2]

theorem getLast?_filter_cons {α : Type} (q : α → Bool) (e : α) (es : List α) :
    ((e :: es).filter q).getLast? =
      match (es.filter q).getLast? with
      | some x => some x
      | none => if q e then some e else none := by
  rw [List.filter_cons]
  by_cases hq : q e = true
  · simp only [hq, if_true]
    cases hl : es.filter q with
    | nil => simp
    | cons x xs => rw [List.getLast?_cons_cons]; cases hx : (x :: xs).getLast? with
      | none => simp at hx
      | some y => rfl
  · simp only [hq, if_false, Bool.false_eq_true]
    cases (es.filter q).getLast? <;> rfl

theorem init_fold_madctl (es : List lcd_init_cmd_t) :
    ∀ s : st7735s_panel_t × World,
      (init_fold es s).1.madctl_val =
        match (es.filter (fun e => decide (e.cmd = LCD_CMD_MADCTL))).getLast? with
        | some e => e.data.getD 0 0
        | none => s.1.madctl_val := by
  induction es with
  | nil => intro s; simp [init_fold_nil]
  | cons e es ih =>
    intro s
    rw [init_fold_cons, ih, getLast?_filter_cons, init_entry_madctl]
    cases (es.filter (fun e => decide (e.cmd = LCD_CMD_MADCTL))).getLast? with
    | some x => rfl
    | none => by_cases h1 : e.cmd = LCD_CMD_MADCTL <;> simp [h1]

theorem init_fold_colmod (es : List lcd_init_cmd_t) :
    ∀ s : st7735s_panel_t × World,
      (init_fold es s).1.colmod_val =
        match (es.filter (fun e => decide (e.cmd = LCD_CMD_COLMOD))).getLast? with
        | some e => e.data.getD 0 0
        | none => s.1.colmod_val := by
  induction es with
  | nil => intro s; simp [init_fold_nil]
  | cons e es ih =>
    intro s
    rw [init_fold_cons, ih, getLast?_filter_cons, init_entry_colmod]
    cases (es.filter (fun e => decide (e.cmd = LCD_CMD_COLMOD))).getLast? with
    | some x => rfl
    | none => by_cases h1 : e.cmd = LCD_CMD_COLMOD <;> simp [h1]

theorem init_entry_panel_indep (e : lcd_init_cmd_t) (p : st7735s_panel_t) (w1 w2 : World) :
    (init_entry e (p, w1)).1 = (init_entry e (p, w2)).1 := rfl

theorem init_fold_panel_indep (es : List lcd_init_cmd_t) :
    ∀ (p : st7735s_panel_t) (w1 w2 : World),
      (init_fold es (p, w1)).1 = (init_fold es (p, w2)).1 := by
  induction es with
  | nil => intro p w1 w2; rfl
  | cons e es ih =>
    intro p w1 w2
    rw [init_fold_cons, init_fold_cons]
    have h1 : init_entry e (p, w1) = ((init_entry e (p, w1)).1, (init_entry e (p, w1)).2) := rfl
    have h2 : init_entry e (p, w2) = ((init_entry e (p, w2)).1, (init_entry e (p, w2)).2) := rfl
    rw [h1, h2, init_entry_panel_indep e p w1 w2]
    exact ih _ _ _

theorem init_eq (h : Header) (p : st7735s_panel_t) (w : World) (ht : table_ok p)
    (h0 : w.tx_ret 0 = ESP_OK) (h1 : w.tx_ret 1 = ESP_OK) (h2 : w.tx_ret 2 = ESP_OK) :
    panel_st7735s_init h p w =
      some (ESP_OK, (init_fold (init_entries h p) (p, after_preamble p w)).1,
        (init_fold (init_entries h p) (p, after_preamble p w)).2) := by
  have hw : (esp_lcd_panel_io_tx_param
      (esp_lcd_panel_io_tx_param
        (emit (esp_lcd_panel_io_tx_param w LCD_CMD_SLPOUT none 0).2 (Event.vTaskDelay_ms 100))
        LCD_CMD_MADCTL (some [p.madctl_val]) 1).2
      LCD_CMD_COLMOD (some [p.colmod_val]) 1).2 = after_preamble p w := by
    simp [esp_lcd_panel_io_tx_param, emit, after_preamble]
  unfold panel_st7735s_init
  have r0 : (esp_lcd_panel_io_tx_param w LCD_CMD_SLPOUT none 0).1 = ESP_OK := h0
  have r1 : (esp_lcd_panel_io_tx_param
      (emit (esp_lcd_panel_io_tx_param w LCD_CMD_SLPOUT none 0).2 (Event.vTaskDelay_ms 100))
      LCD_CMD_MADCTL (some [p.madctl_val]) 1).1 = ESP_OK := h1
  have r2 : (esp_lcd_panel_io_tx_param
      (esp_lcd_panel_io_tx_param
        (emit (esp_lcd_panel_io_tx_param w LCD_CMD_SLPOUT none 0).2 (Event.vTaskDelay_ms 100))
        LCD_CMD_MADCTL (some [p.madctl_val]) 1).2
      LCD_CMD_COLMOD (some [p.colmod_val]) 1).1 = ESP_OK := h2
  simp only [r0, r1, r2, ne_eq, not_true_eq_false, if_false, hw]
  cases hc : p.init_cmds with
  | none =>
    simp only [init_entries, hc]
    rw [init_loop_eq _ _ 0 _ (by simp)]
    simp
  | some cmds =>
    simp only [init_entries, hc]
    rw [init_loop_eq _ _ 0 _ (by simpa using ht cmds hc)]
    simp

theorem init_entries_custom (h : Header) (p : st7735s_panel_t) (cmds : List lcd_init_cmd_t)
    (hc : p.init_cmds = some cmds) : init_entries h p = cmds.take p.init_cmds_size := by
  simp [init_entries, hc]

theorem table_ok_custom (p : st7735s_panel_t) (cmds : List lcd_init_cmd_t)
    (hc : p.init_cmds = some cmds) (hn : p.init_cmds_size ≤ cmds.length) : table_ok p := by
  intro cmds1 hc1
  rw [hc] at hc1
  cases hc1
  exact hn

theorem table_ok_default (p : st7735s_panel_t) (hc : p.init_cmds = none) : table_ok p := by
  intro cmds hc1
  rw [hc] at hc1
  cases hc1

theorem after_preamble_trace (p : st7735s_panel_t) (w : World) :
    (after_preamble p w).trace = w.trace ++ init_preamble p := rfl

/-! ### C5 -/

/-- C5: for every handle with a custom init table (of at least
`init_cmds_size` entries), after `panel_st7735s_init` whose three preamble
writes are accepted, the colour-mode shadow is the first data byte of the last
visited entry whose command is COLMOD, the orientation shadow is the first data
byte of the last visited entry whose command is MADCTL, and every visited entry
with one of these two commands is among the control writes made by the call,
with its command, data and length. -/
theorem C5_init_custom_overwrites_shadows (h : Header) (p : st7735s_panel_t) (w : World)
    (cmds : List lcd_init_cmd_t) (hc : p.init_cmds = some cmds)
    (hn : p.init_cmds_size ≤ cmds.length)
    (h0 : w.tx_ret 0 = ESP_OK) (h1 : w.tx_ret 1 = ESP_OK) (h2 : w.tx_ret 2 = ESP_OK) :
    ∃ p1 w1, panel_st7735s_init h p w = some (ESP_OK, p1, w1) ∧
      (∀ e, ((cmds.take p.init_cmds_size).filter
          (fun e => decide (e.cmd = LCD_CMD_COLMOD))).getLast? = some e →
        p1.colmod_val = e.data.getD 0 0) ∧
      (∀ e, ((cmds.take p.init_cmds_size).filter
          (fun e => decide (e.cmd = LCD_CMD_MADCTL))).getLast? = some e →
        p1.madctl_val = e.data.getD 0 0) ∧
      (∀ e ∈ cmds.take p.init_cmds_size, e.cmd = LCD_CMD_COLMOD ∨ e.cmd = LCD_CMD_MADCTL →
        Event.tx_param e.cmd (some e.data) e.data_bytes ∈ w1.trace.drop w.trace.length) := by
  refine ⟨_, _, init_eq h p w (table_ok_custom p cmds hc hn) h0 h1 h2, ?_, ?_, ?_⟩
  · intro e he
    rw [init_fold_colmod, init_entries_custom h p cmds hc, he]
  · intro e he
    rw [init_fold_madctl, init_entries_custom h p cmds hc, he]
  · intro e he _
    rw [init_fold_trace, init_entries_custom h p cmds hc, after_preamble_trace,
      List.append_assoc, List.drop_left]
    apply List.mem_append_right
    exact List.mem_map.mpr ⟨e, he, rfl⟩

/-- C5 on `custom_table`: the shadows end as 0x06 (second colour-mode entry)
and 0xC8 (orientation entry). -/
theorem C5_init_custom_overwrites_shadows_witness :
    panel_custom.init_cmds = some custom_table ∧
    panel_custom.init_cmds_size ≤ custom_table.length ∧
    world_ok.tx_ret 0 = ESP_OK ∧ world_ok.tx_ret 1 = ESP_OK ∧ world_ok.tx_ret 2 = ESP_OK ∧
    (∃ p1 w1, panel_st7735s_init st7735s_header panel_custom world_ok = some (ESP_OK, p1, w1) ∧
      (∀ e, ((custom_table.take panel_custom.init_cmds_size).filter
          (fun e => decide (e.cmd = LCD_CMD_COLMOD))).getLast? = some e →
        p1.colmod_val = e.data.getD 0 0) ∧
      (∀ e, ((custom_table.take panel_custom.init_cmds_size).filter
          (fun e => decide (e.cmd = LCD_CMD_MADCTL))).getLast? = some e →
        p1.madctl_val = e.data.getD 0 0) ∧
      (∀ e ∈ custom_table.take panel_custom.init_cmds_size,
        e.cmd = LCD_CMD_COLMOD ∨ e.cmd = LCD_CMD_MADCTL →
        Event.tx_param e.cmd (some e.data) e.data_bytes ∈
          w1.trace.drop world_ok.trace.length)) ∧
    (panel_st7735s_init st7735s_header panel_custom world_ok).map
        (fun r => (r.1, r.2.1.colmod_val, r.2.1.madctl_val)) = some (ESP_OK, 0x06, 0xC8) :=
  ⟨rfl, by decide, rfl, rfl, rfl,
   C5_init_custom_overwrites_shadows st7735s_header panel_custom world_ok custom_table rfl
     (by decide) rfl rfl rfl,
   by decide⟩

/-! ### C7 -/

/-- C7, the code on the built-in table: for every value of the header macros,
`panel_st7735s_init` on a handle without custom table and an accepting
transport visits all 19 entries of `vendor_specific_init_default`. After the
preamble it makes one control write per entry, and the last write of the call
is the one for the entry `{0, {0}, 0xff}`: command 0 with size 0xFF. -/
theorem C7_init_default_sends_sentinel_entry (h : Header) :
    (panel_st7735s_init h panel_rgb16 world_ok).map (fun r => (r.1, r.2.2.trace)) =
      some (ESP_OK, init_preamble panel_rgb16 ++
        (vendor_specific_init_default h).map entry_event) ∧
    ((vendor_specific_init_default h).map entry_event).length = 19 ∧
    ((vendor_specific_init_default h).map entry_event).getLast? =
      some (Event.tx_param 0 (some [0]) 0xFF) := by
  refine ⟨?_, rfl, rfl⟩
  rw [init_eq h panel_rgb16 world_ok (table_ok_default _ rfl) rfl rfl rfl]
  simp only [Option.map_some', init_fold_trace, after_preamble_trace]
  rfl

/-! ### C8 -/

/-- C8: with a transport that accepts every write, `panel_st7735s_init` on a
handle with a custom table of `n = init_cmds_size` entries returns ESP_OK and
extends the trace by: the sleep-out write without parameters, (the 100 ms
delay,) the MADCTL write of the one byte `madctl_val` as on entry, the COLMOD
write of the one byte `colmod_val` as on entry, then one write per table entry
0 .. n-1 in order with that entry's command, data and length; these are
exactly `3 + n` control writes. -/
theorem C8_init_custom_table_trace (h : Header) (p : st7735s_panel_t) (w : World)
    (cmds : List lcd_init_cmd_t) (hc : p.init_cmds = some cmds)
    (hn : p.init_cmds_size ≤ cmds.length) (hall : ∀ k, w.tx_ret k = ESP_OK) :
    ∃ p1 w1, panel_st7735s_init h p w = some (ESP_OK, p1, w1) ∧
      w1.trace = w.trace ++
        ([ Event.tx_param LCD_CMD_SLPOUT none 0,
           Event.vTaskDelay_ms 100,
           Event.tx_param LCD_CMD_MADCTL (some [p.madctl_val]) 1,
           Event.tx_param LCD_CMD_COLMOD (some [p.colmod_val]) 1 ] ++
         (cmds.take p.init_cmds_size).map
           (fun e => Event.tx_param e.cmd (some e.data) e.data_bytes)) ∧
      ((w1.trace.drop w.trace.length).filter is_control_write).length =
        3 + p.init_cmds_size := by
  have htr : (init_fold (init_entries h p) (p, after_preamble p w)).2.trace = w.trace ++
        ([ Event.tx_param LCD_CMD_SLPOUT none 0,
           Event.vTaskDelay_ms 100,
           Event.tx_param LCD_CMD_MADCTL (some [p.madctl_val]) 1,
           Event.tx_param LCD_CMD_COLMOD (some [p.colmod_val]) 1 ] ++
         (cmds.take p.init_cmds_size).map
           (fun e => Event.tx_param e.cmd (some e.data) e.data_bytes)) := by
    rw [init_fold_trace, init_entries_custom h p cmds hc, after_preamble_trace,
      List.append_assoc]
    rfl
  refine ⟨_, _, init_eq h p w (table_ok_custom p cmds hc hn) (hall 0) (hall 1) (hall 2),
    htr, ?_⟩
  rw [htr, List.drop_left, List.filter_append]
  have hall_cw : ∀ l : List lcd_init_cmd_t,
      (l.map (fun e => Event.tx_param e.cmd (some e.data) e.data_bytes)).filter
        is_control_write =
      l.map (fun e => Event.tx_param e.cmd (some e.data) e.data_bytes) := by
    intro l
    apply List.filter_eq_self.mpr
    intro ev hev
    obtain ⟨e, _, rfl⟩ := List.mem_map.mp hev
    rfl
  rw [hall_cw, List.length_append, List.length_map, List.length_take, Nat.min_eq_left hn]
  rfl

/-- C8 on `custom_table`: 3 + 4 control writes. -/
theorem C8_init_custom_table_trace_witness :
    panel_custom.init_cmds = some custom_table ∧
    panel_custom.init_cmds_size ≤ custom_table.length ∧
    (∀ k, world_ok.tx_ret k = ESP_OK) ∧
    (∃ p1 w1, panel_st7735s_init st7735s_header panel_custom world_ok = some (ESP_OK, p1, w1) ∧
      w1.trace = world_ok.trace ++
        ([ Event.tx_param LCD_CMD_SLPOUT none 0,
           Event.vTaskDelay_ms 100,
           Event.tx_param LCD_CMD_MADCTL (some [panel_custom.madctl_val]) 1,
           Event.tx_param LCD_CMD_COLMOD (some [panel_custom.colmod_val]) 1 ] ++
         (custom_table.take panel_custom.init_cmds_size).map
           (fun e => Event.tx_param e.cmd (some e.data) e.data_bytes)) ∧
      ((w1.trace.drop world_ok.trace.length).filter is_control_write).length =
        3 + panel_custom.init_cmds_size) ∧
    (panel_st7735s_init st7735s_header panel_custom world_ok).map (fun r => r.2.2.trace) =
      some [ Event.tx_param 0x11 none 0,
             Event.vTaskDelay_ms 100,
             Event.tx_param 0x36 (some [0]) 1,
             Event.tx_param 0x3A (some [0x55]) 1,
             Event.tx_param 0x3A (some [0x05]) 1,
             Event.tx_param 0xB1 (some [0x01, 0x2C, 0x2D]) 3,
             Event.tx_param 0x36 (some [0xC8]) 1,
             Event.tx_param 0x3A (some [0x06]) 1 ] :=
  ⟨rfl, by decide, fun _ => rfl,
   C8_init_custom_table_trace st7735s_header panel_custom world_ok custom_table rfl
     (by decide) (fun _ => rfl),
   by decide⟩

/-! ### C9 -/

/-- C9: for every handle (custom table of at least `init_cmds_size` entries,
or the built-in table) and every transport that accepts the three preamble
writes, whatever it returns for the table-entry writes, `panel_st7735s_init`
returns ESP_OK, makes the write of every visited entry in order, and ends with
the same handle (both shadows included) and the same trace as the run on the
transport that accepts every write. -/
theorem C9_init_swallows_entry_failures (h : Header) (p : st7735s_panel_t) (w : World)
    (ht : table_ok p)
    (h0 : w.tx_ret 0 = ESP_OK) (h1 : w.tx_ret 1 = ESP_OK) (h2 : w.tx_ret 2 = ESP_OK) :
    ∃ p1 w1, panel_st7735s_init h p w = some (ESP_OK, p1, w1) ∧
      w1.trace = w.trace ++ (init_preamble p ++ (init_entries h p).map entry_event) ∧
      ∃ w2, panel_st7735s_init h p { trace := w.trace, tx_ret := fun _ => ESP_OK } =
          some (ESP_OK, p1, w2) ∧
        w2.trace = w1.trace := by
  refine ⟨_, _, init_eq h p w ht h0 h1 h2, ?_,
    (init_fold (init_entries h p)
      (p, after_preamble p { trace := w.trace, tx_ret := fun _ => ESP_OK })).2, ?_, ?_⟩
  · rw [init_fold_trace, after_preamble_trace, List.append_assoc]
  · rw [init_eq h p { trace := w.trace, tx_ret := fun _ => ESP_OK } ht rfl rfl rfl,
      init_fold_panel_indep (init_entries h p) p
        (after_preamble p { trace := w.trace, tx_ret := fun _ => ESP_OK })
        (after_preamble p w)]
  · rw [init_fold_trace, init_fold_trace]
    rfl

/-- C9 on `custom_table` with every table-entry write rejected. -/
theorem C9_init_swallows_entry_failures_witness :
    table_ok panel_custom ∧
    world_entries_fail.tx_ret 0 = ESP_OK ∧ world_entries_fail.tx_ret 1 = ESP_OK ∧
    world_entries_fail.tx_ret 2 = ESP_OK ∧ world_entries_fail.tx_ret 3 ≠ ESP_OK ∧
    (∃ p1 w1, panel_st7735s_init st7735s_header panel_custom world_entries_fail =
        some (ESP_OK, p1, w1) ∧
      w1.trace = world_entries_fail.trace ++
        (init_preamble panel_custom ++
          (init_entries st7735s_header panel_custom).map entry_event) ∧
      ∃ w2, panel_st7735s_init st7735s_header panel_custom
            { trace := world_entries_fail.trace, tx_ret := fun _ => ESP_OK } =
          some (ESP_OK, p1, w2) ∧
        w2.trace = w1.trace) ∧
    (panel_st7735s_init st7735s_header panel_custom world_entries_fail).map
        (fun r => (r.1, r.2.1.colmod_val, r.2.1.madctl_val, r.2.2.trace.length)) =
      some (ESP_OK, 0x06, 0xC8, 8) :=
  ⟨table_ok_custom panel_custom custom_table rfl (by decide), rfl, rfl, rfl, by decide,
   C9_init_swallows_entry_failures st7735s_header panel_custom world_entries_fail
     (table_ok_custom panel_custom custom_table rfl (by decide)) rfl rfl rfl,
   by decide⟩

/-! ### The orientation shadow and the trace -/

theorem shadow_append_none (m : Nat) (t evs : List Event)
    (hinv : shadow_matches_last_write m t) (hev : evs.filter is_madctl_write = []) :
    shadow_matches_last_write m (t ++ evs) := by
  intro ev hlast
  rw [List.filter_append, hev, List.append_nil] at hlast
  exact hinv ev hlast

theorem shadow_append_some (m : Nat) (t evs : List Event) (e : Event)
    (hlast : (evs.filter is_madctl_write).getLast? = some e)
    (hbyte : first_param_byte e = some m) :
    shadow_matches_last_write m (t ++ evs) := by
  intro ev hev
  have hne : evs.filter is_madctl_write ≠ [] := by
    intro hnil
    rw [hnil] at hlast
    simp at hlast
  rw [List.filter_append, List.getLast?_append_of_ne_nil _ hne, hlast] at hev
  cases hev
  exact hbyte

theorem shadow_init_entry (e : lcd_init_cmd_t) (s : st7735s_panel_t × World)
    (he : e.cmd = LCD_CMD_MADCTL → 1 ≤ e.data_bytes)
    (hinv : shadow_matches_last_write s.1.madctl_val s.2.trace) :
    shadow_matches_last_write (init_entry e s).1.madctl_val (init_entry e s).2.trace := by
  rw [init_entry_trace, init_entry_madctl]
  by_cases h1 : e.cmd = LCD_CMD_MADCTL
  · simp only [h1, if_true]
    apply shadow_append_some _ _ _ (entry_event e)
    · simp [entry_event, is_madctl_write, h1]
    · simp [entry_event, first_param_byte, he h1]
  · simp only [h1, if_false]
    apply shadow_append_none _ _ _ hinv
    simp [entry_event, is_madctl_write, h1]

theorem shadow_init_fold (es : List lcd_init_cmd_t) :
    ∀ s : st7735s_panel_t × World,
      (∀ e ∈ es, e.cmd = LCD_CMD_MADCTL → 1 ≤ e.data_bytes) →
      shadow_matches_last_write s.1.madctl_val s.2.trace →
      shadow_matches_last_write (init_fold es s).1.madctl_val (init_fold es s).2.trace := by
  induction es with
  | nil => intro s _ hinv; exact hinv
  | cons e es ih =>
    intro s hes hinv
    rw [init_fold_cons]
    apply ih
    · intro e1 he1
      exact hes e1 (List.mem_cons_of_mem _ he1)
    · exact shadow_init_entry e s (hes e (List.mem_cons_self _ _)) hinv

theorem init_entry_table (e : lcd_init_cmd_t) (s : st7735s_panel_t × World) :
    (init_entry e s).1.init_cmds = s.1.init_cmds ∧
    (init_entry e s).1.init_cmds_size = s.1.init_cmds_size := by
  unfold init_entry
  by_cases h1 : e.cmd = LCD_CMD_MADCTL
  · simp [h1]
  · by_cases h2 : e.cmd = LCD_CMD_COLMOD
    · simp [h2, madctl_ne_colmod.symm]
    · simp [h1, h2]

theorem init_fold_table (es : List lcd_init_cmd_t) :
    ∀ s : st7735s_panel_t × World,
      (init_fold es s).1.init_cmds = s.1.init_cmds ∧
      (init_fold es s).1.init_cmds_size = s.1.init_cmds_size := by
  induction es with
  | nil => intro s; exact ⟨rfl, rfl⟩
  | cons e es ih =>
    intro s
    rw [init_fold_cons]
    exact ⟨(ih _).1.trans (init_entry_table e s).1, (ih _).2.trans (init_entry_table e s).2⟩

theorem init_loop_some_le (cmds : List lcd_init_cmd_t) :
    ∀ (n i : Nat) (s s1 : st7735s_panel_t × World),
      init_loop cmds n i s = some s1 → n = 0 ∨ i + n ≤ cmds.length := by
  intro n
  induction n with
  | zero => intro i s s1 _; exact Or.inl rfl
  | succ n ih =>
    intro i s s1 hs
    right
    rw [init_loop] at hs
    cases hg : cmds.get? i with
    | none => rw [hg] at hs; simp at hs
    | some e =>
      rw [hg] at hs
      have hi : i < cmds.length := by
        rw [List.get?_eq_getElem?] at hg
        by_contra hcon
        rw [List.getElem?_eq_none (by omega)] at hg
        cases hg
      rcases ih (i + 1) _ s1 hs with h0 | hle
      · omega
      · omega

theorem init_loop_zero_eq (cmds : List lcd_init_cmd_t) (n : Nat)
    (s s1 : st7735s_panel_t × World) (hs : init_loop cmds n 0 s = some s1) :
    s1 = init_fold (cmds.take n) s := by
  rcases init_loop_some_le cmds n 0 s s1 hs with h0 | hle
  · subst h0
    simp [init_loop] at hs
    simp [init_fold, hs]
  · rw [init_loop_eq cmds n 0 s (by omega)] at hs
    simp at hs
    exact hs.symm

/-- The results `panel_st7735s_init` can give: one of the three early returns
with the handle untouched, or the run of the loop over the visited entries. -/
theorem init_some_cases (h : Header) (p : st7735s_panel_t) (w : World)
    (r : esp_err_t × st7735s_panel_t × World) (hr : panel_st7735s_init h p w = some r) :
    (r.2.1 = p ∧
      (r.2.2.trace = w.trace ++ [Event.tx_param LCD_CMD_SLPOUT none 0] ∨
       r.2.2.trace = w.trace ++
         [ Event.tx_param LCD_CMD_SLPOUT none 0, Event.vTaskDelay_ms 100,
           Event.tx_param LCD_CMD_MADCTL (some [p.madctl_val]) 1 ] ∨
       r.2.2.trace = w.trace ++ init_preamble p)) ∨
    r = (ESP_OK, (init_fold (init_entries h p) (p, after_preamble p w)).1,
          (init_fold (init_entries h p) (p, after_preamble p w)).2) := by
  have hw : (esp_lcd_panel_io_tx_param
      (esp_lcd_panel_io_tx_param
        (emit (esp_lcd_panel_io_tx_param w LCD_CMD_SLPOUT none 0).2 (Event.vTaskDelay_ms 100))
        LCD_CMD_MADCTL (some [p.madctl_val]) 1).2
      LCD_CMD_COLMOD (some [p.colmod_val]) 1).2 = after_preamble p w := by
    simp [esp_lcd_panel_io_tx_param, emit, after_preamble]
  unfold panel_st7735s_init at hr
  simp only at hr
  split at hr
  · left
    cases hr
    exact ⟨rfl, Or.inl rfl⟩
  · split at hr
    · left
      cases hr
      refine ⟨rfl, Or.inr (Or.inl ?_)⟩
      simp [esp_lcd_panel_io_tx_param, emit]
    · split at hr
      · left
        cases hr
        refine ⟨rfl, Or.inr (Or.inr ?_)⟩
        simp [esp_lcd_panel_io_tx_param, emit, init_preamble]
      · right
        rw [hw] at hr
        cases hc : p.init_cmds with
        | none =>
          rw [hc] at hr
          simp only at hr
          cases hl : init_loop (vendor_specific_init_default h)
              (vendor_specific_init_default h).length 0 (p, after_preamble p w) with
          | none => rw [hl] at hr; simp at hr
          | some s1 =>
            rw [hl] at hr
            have := init_loop_zero_eq _ _ _ _ hl
            rw [List.take_length] at this
            simp only [Option.some.injEq] at hr
            rw [← hr, this]
            simp [init_entries, hc]
        | some cmds =>
          rw [hc] at hr
          simp only at hr
          cases hl : init_loop cmds p.init_cmds_size 0 (p, after_preamble p w) with
          | none => rw [hl] at hr; simp at hr
          | some s1 =>
            rw [hl] at hr
            have := init_loop_zero_eq _ _ _ _ hl
            simp only [Option.some.injEq] at hr
            rw [← hr, this]
            simp [init_entries, hc]

theorem mirror_trace (p : st7735s_panel_t) (w : World) (mx my : Bool) :
    (panel_st7735s_mirror p w mx my).2.2.trace = w.trace ++
      [Event.tx_param LCD_CMD_MADCTL
        (some [(panel_st7735s_mirror p w mx my).2.1.madctl_val]) 1] := by
  unfold panel_st7735s_mirror
  cases mx <;> cases my <;> simp [esp_lcd_panel_io_tx_param] <;> split <;> simp

theorem swap_xy_trace (p : st7735s_panel_t) (w : World) (sw : Bool) :
    (panel_st7735s_swap_xy p w sw).2.2.trace = w.trace ++
      [Event.tx_param LCD_CMD_MADCTL
        (some [(panel_st7735s_swap_xy p w sw).2.1.madctl_val]) 1] := by
  unfold panel_st7735s_swap_xy
  cases sw <;> simp [esp_lcd_panel_io_tx_param] <;> split <;> simp

theorem mirror_table (p : st7735s_panel_t) (w : World) (mx my : Bool) :
    (panel_st7735s_mirror p w mx my).2.1.init_cmds = p.init_cmds ∧
    (panel_st7735s_mirror p w mx my).2.1.init_cmds_size = p.init_cmds_size := by
  unfold panel_st7735s_mirror
  cases mx <;> cases my <;> simp <;> split <;> simp

theorem swap_xy_table (p : st7735s_panel_t) (w : World) (sw : Bool) :
    (panel_st7735s_swap_xy p w sw).2.1.init_cmds = p.init_cmds ∧
    (panel_st7735s_swap_xy p w sw).2.1.init_cmds_size = p.init_cmds_size := by
  unfold panel_st7735s_swap_xy
  cases sw <;> simp <;> split <;> simp

theorem invert_color_eq (p : st7735s_panel_t) (w : World) (b : Bool) :
    (panel_st7735s_invert_color p w b).2.1 = p ∧
    (panel_st7735s_invert_color p w b).2.2.trace = w.trace ++
      [Event.tx_param (if b then LCD_CMD_INVON else LCD_CMD_INVOFF) none 0] := by
  unfold panel_st7735s_invert_color
  cases b <;> simp [esp_lcd_panel_io_tx_param] <;> split <;> simp

theorem disp_on_off_eq (p : st7735s_panel_t) (w : World) (b : Bool) :
    (panel_st7735s_disp_on_off p w b).2.1 = p ∧
    (panel_st7735s_disp_on_off p w b).2.2.trace = w.trace ++
      [Event.tx_param (if b then LCD_CMD_DISPON else LCD_CMD_DISPOFF) none 0] := by
  unfold panel_st7735s_disp_on_off
  cases b <;> simp [esp_lcd_panel_io_tx_param] <;> split <;> simp

theorem reset_eq (p : st7735s_panel_t) (w : World) :
    (panel_st7735s_reset p w).2.1 = p ∧
    ∃ evs, (panel_st7735s_reset p w).2.2.trace = w.trace ++ evs ∧
      evs.filter is_madctl_write = [] := by
  unfold panel_st7735s_reset
  split
  · refine ⟨rfl, [Event.gpio_set_level p.reset_gpio_num p.reset_level, Event.vTaskDelay_ms 10,
      Event.gpio_set_level p.reset_gpio_num (!p.reset_level), Event.vTaskDelay_ms 10], ?_, rfl⟩
    simp [emit]
  · simp only
    split
    · exact ⟨rfl, [Event.tx_param LCD_CMD_SWRESET none 0], rfl, rfl⟩
    · refine ⟨rfl, [Event.tx_param LCD_CMD_SWRESET none 0, Event.vTaskDelay_ms 20], ?_, rfl⟩
      simp [emit, esp_lcd_panel_io_tx_param]

theorem init_entries_congr (h : Header) (p q : st7735s_panel_t)
    (h1 : q.init_cmds = p.init_cmds) (h2 : q.init_cmds_size = p.init_cmds_size) :
    init_entries h q = init_entries h p := by
  unfold init_entries
  rw [h1, h2]

/-- One operation keeps the agreement of the orientation shadow with the trace
and leaves the init table of the handle alone. -/
theorem step_shadow (h : Header) (op : Op) (s : st7735s_panel_t × World)
    (r : esp_err_t × st7735s_panel_t × World) (hstep : step h op s = some r)
    (htbl : ∀ e ∈ init_entries h s.1, e.cmd = LCD_CMD_MADCTL → 1 ≤ e.data_bytes)
    (hinv : shadow_matches_last_write s.1.madctl_val s.2.trace) :
    shadow_matches_last_write r.2.1.madctl_val r.2.2.trace ∧
    r.2.1.init_cmds = s.1.init_cmds ∧ r.2.1.init_cmds_size = s.1.init_cmds_size := by
  cases op with
  | reset =>
    simp only [step, Option.some.injEq] at hstep
    subst hstep
    obtain ⟨hp, evs, htr, hev⟩ := reset_eq s.1 s.2
    rw [hp, htr]
    exact ⟨shadow_append_none _ _ _ hinv hev, rfl, rfl⟩
  | init =>
    simp only [step] at hstep
    rcases init_some_cases h s.1 s.2 r hstep with ⟨hp, htr⟩ | hr
    · rw [hp]
      refine ⟨?_, rfl, rfl⟩
      rcases htr with htr | htr | htr
      · rw [htr]
        exact shadow_append_none _ _ _ hinv rfl
      · rw [htr]
        exact shadow_append_some _ _ _
          (Event.tx_param LCD_CMD_MADCTL (some [s.1.madctl_val]) 1) rfl rfl
      · rw [htr]
        exact shadow_append_some _ _ _
          (Event.tx_param LCD_CMD_MADCTL (some [s.1.madctl_val]) 1) rfl rfl
    · subst hr
      refine ⟨?_, (init_fold_table _ _).1, (init_fold_table _ _).2⟩
      apply shadow_init_fold _ _ htbl
      rw [after_preamble_trace]
      exact shadow_append_some _ _ _
        (Event.tx_param LCD_CMD_MADCTL (some [s.1.madctl_val]) 1) rfl rfl
  | draw_bitmap xs ys xe ye c =>
    simp only [step] at hstep
    by_cases hxy : xs < xe ∧ ys < ye
    · rw [draw_bitmap_eq h s.1 s.2 xs ys xe ye c hxy.1 hxy.2] at hstep
      simp only [Option.some.injEq] at hstep
      subst hstep
      exact ⟨shadow_append_none _ _ _ hinv rfl, rfl, rfl⟩
    · simp [panel_st7735s_draw_bitmap, hxy] at hstep
  | invert_color b =>
    simp only [step, Option.some.injEq] at hstep
    subst hstep
    obtain ⟨hp, htr⟩ := invert_color_eq s.1 s.2 b
    rw [hp, htr]
    refine ⟨shadow_append_none _ _ _ hinv ?_, rfl, rfl⟩
    cases b <;> rfl
  | mirror mx my =>
    simp only [step, Option.some.injEq] at hstep
    subst hstep
    refine ⟨?_, mirror_table s.1 s.2 mx my⟩
    rw [mirror_trace]
    exact shadow_append_some _ _ _ _ rfl rfl
  | swap_xy sw =>
    simp only [step, Option.some.injEq] at hstep
    subst hstep
    refine ⟨?_, swap_xy_table s.1 s.2 sw⟩
    rw [swap_xy_trace]
    exact shadow_append_some _ _ _ _ rfl rfl
  | set_gap x y =>
    simp only [step, Option.some.injEq] at hstep
    subst hstep
    exact ⟨hinv, rfl, rfl⟩
  | disp_on_off b =>
    simp only [step, Option.some.injEq] at hstep
    subst hstep
    obtain ⟨hp, htr⟩ := disp_on_off_eq s.1 s.2 b
    rw [hp, htr]
    refine ⟨shadow_append_none _ _ _ hinv ?_, rfl, rfl⟩
    cases b <;> rfl

theorem run_shadow (h : Header) (ops : List Op) :
    ∀ (s s1 : st7735s_panel_t × World), run h ops s = some s1 →
      (∀ e ∈ init_entries h s.1, e.cmd = LCD_CMD_MADCTL → 1 ≤ e.data_bytes) →
      shadow_matches_last_write s.1.madctl_val s.2.trace →
      shadow_matches_last_write s1.1.madctl_val s1.2.trace := by
  induction ops with
  | nil =>
    intro s s1 hrun _ hinv
    simp only [run, Option.some.injEq] at hrun
    subst hrun
    exact hinv
  | cons op ops ih =>
    intro s s1 hrun htbl hinv
    rw [run] at hrun
    cases hst : step h op s with
    | none => rw [hst] at hrun; simp at hrun
    | some r =>
      rw [hst] at hrun
      obtain ⟨hinv1, hc, hn⟩ := step_shadow h op s r hst htbl hinv
      apply ih r.2 s1 hrun _ hinv1
      rw [init_entries_congr h s.1 r.2.1 hc hn]
      exact htbl

theorem new_panel_events (a b c : Bool) (cfg : Option esp_lcd_panel_dev_config_t)
    (g : esp_err_t) :
    (esp_lcd_new_panel_st7735s a cfg b c g).2.2.filter is_madctl_write = [] := by
  cases cfg with
  | none => rfl
  | some cfg =>
    simp only [esp_lcd_new_panel_st7735s, new_panel_err]
    repeat' split
    all_goals rfl

/-! ### C10 -/

/-- C10: take any handle returned by `esp_lcd_new_panel_st7735s` whose visited
init entries with the MADCTL command all declare at least one parameter byte,
any transport return codes, and any finite sequence of the operations reset,
init, draw_bitmap, invert_color, mirror, swap_xy, set_gap, disp_on_off run from
the state right after creation. In the state reached, if the trace holds a
control write to the orientation register, then the last such write carries
the orientation shadow `madctl_val` as its first parameter byte. (The proof
uses of the created handle only that creation makes no orientation write.) -/
theorem C10_shadow_is_last_orientation_write (h : Header) (a b c : Bool)
    (cfg : Option esp_lcd_panel_dev_config_t) (g : esp_err_t) (p0 : st7735s_panel_t)
    (tx : Nat → esp_err_t) (ops : List Op) (s : st7735s_panel_t × World)
    (_hcreate : (esp_lcd_new_panel_st7735s a cfg b c g).2.1 = some p0)
    (htbl : ∀ e ∈ init_entries h p0, e.cmd = LCD_CMD_MADCTL → 1 ≤ e.data_bytes)
    (hrun : run h ops
      (p0, { trace := (esp_lcd_new_panel_st7735s a cfg b c g).2.2, tx_ret := tx }) = some s) :
    ∀ ev, (s.2.trace.filter is_madctl_write).getLast? = some ev →
      first_param_byte ev = some s.1.madctl_val := by
  have h0 : shadow_matches_last_write p0.madctl_val
      (esp_lcd_new_panel_st7735s a cfg b c g).2.2 := by
    intro ev hev
    rw [new_panel_events] at hev
    simp at hev
  exact run_shadow h ops _ s hrun htbl h0

/-- C10 on `ops_sample` from the handle of `cfg_rgb16` with a transport that
rejects some writes: the run ends with shadow 0x60 and the last orientation
write carries 0x60. -/
theorem C10_shadow_is_last_orientation_write_witness :
    (esp_lcd_new_panel_st7735s true (some cfg_rgb16) true true 0).2.1 = some panel_rgb16 ∧
    (∀ e ∈ init_entries st7735s_header panel_rgb16,
      e.cmd = LCD_CMD_MADCTL → 1 ≤ e.data_bytes) ∧
    (∃ s, run st7735s_header ops_sample
        (panel_rgb16, { trace := (esp_lcd_new_panel_st7735s true (some cfg_rgb16) true true 0).2.2,
                        tx_ret := tx_flaky }) = some s ∧
      ∀ ev, (s.2.trace.filter is_madctl_write).getLast? = some ev →
        first_param_byte ev = some s.1.madctl_val) ∧
    (run st7735s_header ops_sample
        (panel_rgb16, { trace := (esp_lcd_new_panel_st7735s true (some cfg_rgb16) true true 0).2.2,
                        tx_ret := tx_flaky })).map
        (fun s => (s.1.madctl_val, (s.2.trace.filter is_madctl_write).getLast?)) =
      some (0x60, some (Event.tx_param LCD_CMD_MADCTL (some [0x60]) 1)) :=
  ⟨by decide, by decide,
   ⟨_, (Option.some_get (by decide)).symm,
     C10_shadow_is_last_orientation_write st7735s_header true true true (some cfg_rgb16) 0
       panel_rgb16 tx_flaky ops_sample _ (by decide) (by decide)
       (Option.some_get (by decide)).symm⟩,
   by decide⟩

/-! ### C11 -/

/-- C11: `panel_st7735s_reset` on a handle without reset pin
(`reset_gpio_num < 0`) makes exactly one transport write, the SWRESET command
without parameters, and no GPIO call. If the write is accepted it then
requests a delay of 20 ms and returns ESP_OK; if the write is rejected it
returns the return code of the transport. The handle is unchanged. -/
theorem C11_reset_software (p : st7735s_panel_t) (w : World) (hpin : p.reset_gpio_num < 0) :
    (w.tx_ret 0 = ESP_OK →
      (panel_st7735s_reset p w).1 = ESP_OK ∧ (panel_st7735s_reset p w).2.1 = p ∧
      (panel_st7735s_reset p w).2.2.trace = w.trace ++
        [Event.tx_param LCD_CMD_SWRESET none 0, Event.vTaskDelay_ms 20]) ∧
    (w.tx_ret 0 ≠ ESP_OK →
      (panel_st7735s_reset p w).1 = w.tx_ret 0 ∧ (panel_st7735s_reset p w).2.1 = p ∧
      (panel_st7735s_reset p w).2.2.trace = w.trace ++
        [Event.tx_param LCD_CMD_SWRESET none 0]) := by
  have hn : ¬ p.reset_gpio_num ≥ 0 := by omega
  constructor
  · intro h0
    simp [panel_st7735s_reset, hn, esp_lcd_panel_io_tx_param, emit, h0]
  · intro h0
    simp [panel_st7735s_reset, hn, esp_lcd_panel_io_tx_param, h0]

/-- C11 on the handle without reset pin, with an accepting and with a
rejecting transport. -/
theorem C11_reset_software_witness :
    panel_rgb16.reset_gpio_num < 0 ∧ world_ok.tx_ret 0 = ESP_OK ∧
    world_fail.tx_ret 0 ≠ ESP_OK ∧
    ((panel_st7735s_reset panel_rgb16 world_ok).1 = ESP_OK ∧
      (panel_st7735s_reset panel_rgb16 world_ok).2.1 = panel_rgb16 ∧
      (panel_st7735s_reset panel_rgb16 world_ok).2.2.trace = world_ok.trace ++
        [Event.tx_param LCD_CMD_SWRESET none 0, Event.vTaskDelay_ms 20]) ∧
    ((panel_st7735s_reset panel_rgb16 world_fail).1 = world_fail.tx_ret 0 ∧
      (panel_st7735s_reset panel_rgb16 world_fail).2.1 = panel_rgb16 ∧
      (panel_st7735s_reset panel_rgb16 world_fail).2.2.trace = world_fail.trace ++
        [Event.tx_param LCD_CMD_SWRESET none 0]) :=
  ⟨by decide, rfl, by decide,
   (C11_reset_software panel_rgb16 world_ok (by decide)).1 rfl,
   (C11_reset_software panel_rgb16 world_fail (by decide)).2 (by decide)⟩

/-! ### C18 -/

/-- C18: `panel_st7735s_reset` on a handle with a reset pin
(`reset_gpio_num >= 0`) makes no transport write and consumes no transport
return code: it extends the trace by exactly set-level(pin, `reset_level`), a
delay request of 10 ms, set-level(pin, not `reset_level`), a delay request of
10 ms, and returns ESP_OK with the handle unchanged. -/
theorem C18_reset_hardware (p : st7735s_panel_t) (w : World) (hpin : p.reset_gpio_num ≥ 0) :
    (panel_st7735s_reset p w).1 = ESP_OK ∧ (panel_st7735s_reset p w).2.1 = p ∧
    (panel_st7735s_reset p w).2.2.trace = w.trace ++
      [ Event.gpio_set_level p.reset_gpio_num p.reset_level,
        Event.vTaskDelay_ms 10,
        Event.gpio_set_level p.reset_gpio_num (!p.reset_level),
        Event.vTaskDelay_ms 10 ] ∧
    (panel_st7735s_reset p w).2.2.tx_ret = w.tx_ret := by
  simp [panel_st7735s_reset, hpin, emit]

/-- C18 on the handle with reset pin 5, active high, on a rejecting transport. -/
theorem C18_reset_hardware_witness :
    panel_pin.reset_gpio_num ≥ 0 ∧
    (panel_st7735s_reset panel_pin world_fail).1 = ESP_OK ∧
    (panel_st7735s_reset panel_pin world_fail).2.1 = panel_pin ∧
    (panel_st7735s_reset panel_pin world_fail).2.2.trace = world_fail.trace ++
      [ Event.gpio_set_level panel_pin.reset_gpio_num panel_pin.reset_level,
        Event.vTaskDelay_ms 10,
        Event.gpio_set_level panel_pin.reset_gpio_num (!panel_pin.reset_level),
        Event.vTaskDelay_ms 10 ] ∧
    (panel_st7735s_reset panel_pin world_fail).2.2.tx_ret = world_fail.tx_ret ∧
    (panel_st7735s_reset panel_pin world_fail).2.2.trace =
      [ Event.gpio_set_level 5 true, Event.vTaskDelay_ms 10,
        Event.gpio_set_level 5 false, Event.vTaskDelay_ms 10 ] :=
  ⟨by decide,
   (C18_reset_hardware panel_pin world_fail (by decide)).1,
   (C18_reset_hardware panel_pin world_fail (by decide)).2.1,
   (C18_reset_hardware panel_pin world_fail (by decide)).2.2.1,
   (C18_reset_hardware panel_pin world_fail (by decide)).2.2.2,
   by decide⟩

/-! ### C12 -/

/-- C12: `esp_lcd_new_panel_st7735s` called with non-NULL arguments
(allocation and the reset-pin claim succeeding) derives the orientation shadow
from the colour order alone: with a supported bit depth, RGB gives `madctl_val`
0 and BGR gives exactly `LCD_CMD_BGR_BIT`; any other colour order returns
ESP_ERR_NOT_SUPPORTED and no handle, whatever the bit depth. On the handle
created for RGB, `panel_st7735s_mirror(true, false)` makes one orientation
write whose parameter byte is exactly `LCD_CMD_MX_BIT`. -/
theorem C12_create_orientation (cfg : esp_lcd_panel_dev_config_t) (g : esp_err_t)
    (hgpio : cfg.reset_gpio_num < 0 ∨ g = ESP_OK) :
    (cfg.rgb_endian = LCD_RGB_ENDIAN_RGB →
      cfg.bits_per_pixel = 16 ∨ cfg.bits_per_pixel = 18 →
      (esp_lcd_new_panel_st7735s true (some cfg) true true g).1 = ESP_OK ∧
      ∃ p, (esp_lcd_new_panel_st7735s true (some cfg) true true g).2.1 = some p ∧
        p.madctl_val = 0 ∧
        ∀ w : World, (panel_st7735s_mirror p w true false).2.2.trace =
          w.trace ++ [Event.tx_param LCD_CMD_MADCTL (some [LCD_CMD_MX_BIT]) 1]) ∧
    (cfg.rgb_endian = LCD_RGB_ENDIAN_BGR →
      cfg.bits_per_pixel = 16 ∨ cfg.bits_per_pixel = 18 →
      (esp_lcd_new_panel_st7735s true (some cfg) true true g).1 = ESP_OK ∧
      ∃ p, (esp_lcd_new_panel_st7735s true (some cfg) true true g).2.1 = some p ∧
        p.madctl_val = LCD_CMD_BGR_BIT) ∧
    (cfg.rgb_endian ≠ LCD_RGB_ENDIAN_RGB → cfg.rgb_endian ≠ LCD_RGB_ENDIAN_BGR →
      (esp_lcd_new_panel_st7735s true (some cfg) true true g).1 = ESP_ERR_NOT_SUPPORTED ∧
      (esp_lcd_new_panel_st7735s true (some cfg) true true g).2.1 = none) := by
  have hg : ¬ (cfg.reset_gpio_num ≥ 0 ∧ g ≠ ESP_OK) := by
    rintro ⟨h1, h2⟩
    rcases hgpio with h | h
    · omega
    · exact h2 h
  have hmx : ∀ (p : st7735s_panel_t) (w : World), p.madctl_val = 0 →
      (panel_st7735s_mirror p w true false).2.2.trace =
        w.trace ++ [Event.tx_param LCD_CMD_MADCTL (some [LCD_CMD_MX_BIT]) 1] := by
    intro p w hp
    rw [mirror_trace, mirror_madctl, hp]
    rfl
  refine ⟨?_, ?_, ?_⟩
  · intro hc hb
    rcases hb with hb | hb <;> cases hv : cfg.vendor_config <;>
      simp [esp_lcd_new_panel_st7735s, hg, hc, hb, hv, LCD_RGB_ENDIAN_RGB] <;>
      exact fun w => hmx _ w rfl
  · intro hc hb
    rcases hb with hb | hb <;> cases hv : cfg.vendor_config <;>
      simp [esp_lcd_new_panel_st7735s, hg, hc, hb, hv, LCD_RGB_ENDIAN_RGB,
        LCD_RGB_ENDIAN_BGR] <;> rfl
  · intro h1 h2
    simp [esp_lcd_new_panel_st7735s, hg, h1, h2, new_panel_err]

/-- C12 on depth 16, RGB, no reset pin: the handle has orientation 0, colour
mode 0x55 and 16 bits (2 bytes) per pixel, and the following
`panel_st7735s_mirror(true, false)` makes the single write MADCTL [0x40]. -/
theorem C12_create_orientation_witness :
    (cfg_rgb16.reset_gpio_num < 0 ∨ (0 : esp_err_t) = ESP_OK) ∧
    cfg_rgb16.rgb_endian = LCD_RGB_ENDIAN_RGB ∧
    (cfg_rgb16.bits_per_pixel = 16 ∨ cfg_rgb16.bits_per_pixel = 18) ∧
    ((esp_lcd_new_panel_st7735s true (some cfg_rgb16) true true 0).1 = ESP_OK ∧
      ∃ p, (esp_lcd_new_panel_st7735s true (some cfg_rgb16) true true 0).2.1 = some p ∧
        p.madctl_val = 0 ∧
        ∀ w : World, (panel_st7735s_mirror p w true false).2.2.trace =
          w.trace ++ [Event.tx_param LCD_CMD_MADCTL (some [LCD_CMD_MX_BIT]) 1]) ∧
    (esp_lcd_new_panel_st7735s true (some cfg_rgb16) true true 0).2.1 = some panel_rgb16 ∧
    (panel_rgb16.madctl_val, panel_rgb16.colmod_val, panel_rgb16.fb_bits_per_pixel / 8) =
      (0, 0x55, 2) ∧
    (panel_st7735s_mirror panel_rgb16 world_ok true false).2.2.trace =
      [Event.tx_param 0x36 (some [0x40]) 1] ∧
    (esp_lcd_new_panel_st7735s true (some { cfg_rgb16 with rgb_endian := 1, bits_per_pixel := 18 })
      true true 0).2.1 = some panel_bgr18 :=
  ⟨Or.inl (by decide), rfl, Or.inl rfl,
   (C12_create_orientation cfg_rgb16 0 (Or.inl (by decide))).1 rfl (Or.inl rfl),
   by decide, by decide, by decide, by decide⟩

/-! ### C13 -/

/-- C13: `panel_st7735s_set_gap(x_gap, y_gap)` returns ESP_OK, leaves the world
as it is (no transport write, no GPIO call, no delay), sets the gap to
`(x_gap, y_gap)` and leaves every other field of the handle unchanged; a draw
on the resulting handle builds its CASET and RASET parameters from the new
gap. -/
theorem C13_set_gap (h : Header) (p : st7735s_panel_t) (w : World) (x_gap y_gap : Int) :
    (panel_st7735s_set_gap p w x_gap y_gap).1 = ESP_OK ∧
    (panel_st7735s_set_gap p w x_gap y_gap).2.2 = w ∧
    (panel_st7735s_set_gap p w x_gap y_gap).2.1 = { p with x_gap := x_gap, y_gap := y_gap } ∧
    (panel_st7735s_set_gap p w x_gap y_gap).2.1.x_gap = x_gap ∧
    (panel_st7735s_set_gap p w x_gap y_gap).2.1.y_gap = y_gap ∧
    (panel_st7735s_set_gap p w x_gap y_gap).2.1.madctl_val = p.madctl_val ∧
    (panel_st7735s_set_gap p w x_gap y_gap).2.1.colmod_val = p.colmod_val ∧
    (panel_st7735s_set_gap p w x_gap y_gap).2.1.fb_bits_per_pixel = p.fb_bits_per_pixel ∧
    (panel_st7735s_set_gap p w x_gap y_gap).2.1.reset_gpio_num = p.reset_gpio_num ∧
    (panel_st7735s_set_gap p w x_gap y_gap).2.1.reset_level = p.reset_level ∧
    (panel_st7735s_set_gap p w x_gap y_gap).2.1.init_cmds = p.init_cmds ∧
    (panel_st7735s_set_gap p w x_gap y_gap).2.1.init_cmds_size = p.init_cmds_size ∧
    (∀ (xs ys xe ye : Int) (c : List Nat) (w0 : World), xs < xe → ys < ye →
      ∃ w1 len,
        panel_st7735s_draw_bitmap h (panel_st7735s_set_gap p w x_gap y_gap).2.1 w0
          xs ys xe ye c =
          some (ESP_OK, (panel_st7735s_set_gap p w x_gap y_gap).2.1, w1) ∧
        w1.trace = w0.trace ++
          [ Event.tx_param LCD_CMD_CASET
              (some [ u8 (Int.land ((xs + x_gap) >>> 8) 0xFF),
                      u8 (Int.land ((xs + x_gap) + h.COLSTART) 0xFF),
                      u8 (Int.land ((xe + x_gap - 1) >>> 8) 0xFF),
                      u8 (Int.land ((xe + x_gap - 1) + h.COLSTART) 0xFF) ]) 4,
            Event.tx_param LCD_CMD_RASET
              (some [ u8 (Int.land ((ys + y_gap) >>> 8) 0xFF),
                      u8 (Int.land ((ys + y_gap) + h.ROWSTART) 0xFF),
                      u8 (Int.land ((ye + y_gap - 1) >>> 8) 0xFF),
                      u8 (Int.land ((ye + y_gap - 1) + h.ROWSTART) 0xFF) ]) 4,
            Event.tx_color LCD_CMD_RAMWR c len ]) := by
  refine ⟨rfl, rfl, rfl, rfl, rfl, rfl, rfl, rfl, rfl, rfl, rfl, rfl, ?_⟩
  intro xs ys xe ye c w0 hx hy
  exact ⟨_, _, draw_bitmap_eq h _ w0 xs ys xe ye c hx hy, rfl⟩

/-- C13 at `set_gap(2, 3)` followed by a draw of (10, 10, 20, 20). -/
theorem C13_set_gap_witness :
    (panel_st7735s_set_gap panel_rgb16 world_fail 2 3).1 = ESP_OK ∧
    (panel_st7735s_set_gap panel_rgb16 world_fail 2 3).2.2.trace = [] ∧
    (panel_st7735s_set_gap panel_rgb16 world_fail 2 3).2.1 = panel_gap ∧
    (panel_st7735s_draw_bitmap st7735s_header
        (panel_st7735s_set_gap panel_rgb16 world_fail 2 3).2.1 world_ok 10 10 20 20 []).map
        (fun r => r.2.2.trace) =
      some [ Event.tx_param LCD_CMD_CASET (some [0, 38, 0, 47]) 4,
             Event.tx_param LCD_CMD_RASET (some [0, 14, 0, 23]) 4,
             Event.tx_color LCD_CMD_RAMWR [] 200 ] :=
  ⟨(C13_set_gap st7735s_header panel_rgb16 world_fail 2 3).1, by decide, by decide, by decide⟩

/-! ### C14 -/

/-- C14: each of `panel_st7735s_mirror`, `panel_st7735s_swap_xy`,
`panel_st7735s_invert_color` and `panel_st7735s_disp_on_off` extends the trace
by exactly one event, a control write, consumes exactly one transport return
code, and returns that return code: ESP_OK if and only if the write was
accepted, the error of the transport unchanged otherwise. -/
theorem C14_setters_fail_fast (p : st7735s_panel_t) (w : World) :
    (∀ mx my : Bool,
      (panel_st7735s_mirror p w mx my).1 = w.tx_ret 0 ∧
      ((panel_st7735s_mirror p w mx my).1 = ESP_OK ↔ w.tx_ret 0 = ESP_OK) ∧
      (∃ ev, is_control_write ev = true ∧
        (panel_st7735s_mirror p w mx my).2.2.trace = w.trace ++ [ev]) ∧
      (panel_st7735s_mirror p w mx my).2.2.tx_ret = fun k => w.tx_ret (k + 1)) ∧
    (∀ sw : Bool,
      (panel_st7735s_swap_xy p w sw).1 = w.tx_ret 0 ∧
      ((panel_st7735s_swap_xy p w sw).1 = ESP_OK ↔ w.tx_ret 0 = ESP_OK) ∧
      (∃ ev, is_control_write ev = true ∧
        (panel_st7735s_swap_xy p w sw).2.2.trace = w.trace ++ [ev]) ∧
      (panel_st7735s_swap_xy p w sw).2.2.tx_ret = fun k => w.tx_ret (k + 1)) ∧
    (∀ b : Bool,
      (panel_st7735s_invert_color p w b).1 = w.tx_ret 0 ∧
      ((panel_st7735s_invert_color p w b).1 = ESP_OK ↔ w.tx_ret 0 = ESP_OK) ∧
      (∃ ev, is_control_write ev = true ∧
        (panel_st7735s_invert_color p w b).2.2.trace = w.trace ++ [ev]) ∧
      (panel_st7735s_invert_color p w b).2.2.tx_ret = fun k => w.tx_ret (k + 1)) ∧
    (∀ b : Bool,
      (panel_st7735s_disp_on_off p w b).1 = w.tx_ret 0 ∧
      ((panel_st7735s_disp_on_off p w b).1 = ESP_OK ↔ w.tx_ret 0 = ESP_OK) ∧
      (∃ ev, is_control_write ev = true ∧
        (panel_st7735s_disp_on_off p w b).2.2.trace = w.trace ++ [ev]) ∧
      (panel_st7735s_disp_on_off p w b).2.2.tx_ret = fun k => w.tx_ret (k + 1)) := by
  refine ⟨?_, ?_, ?_, ?_⟩
  · intro mx my
    have hret : (panel_st7735s_mirror p w mx my).1 = w.tx_ret 0 := by
      unfold panel_st7735s_mirror
      simp only [esp_lcd_panel_io_tx_param]
      split
      · rfl
      · rename_i hne
        exact (not_not.mp hne).symm
    have htx : (panel_st7735s_mirror p w mx my).2.2.tx_ret = fun k => w.tx_ret (k + 1) := by
      unfold panel_st7735s_mirror
      simp only [esp_lcd_panel_io_tx_param]
      split <;> rfl
    exact ⟨hret, by rw [hret], ⟨Event.tx_param LCD_CMD_MADCTL
      (some [(panel_st7735s_mirror p w mx my).2.1.madctl_val]) 1, rfl, mirror_trace p w mx my⟩, htx⟩
  · intro sw
    have hret : (panel_st7735s_swap_xy p w sw).1 = w.tx_ret 0 := by
      unfold panel_st7735s_swap_xy
      simp only [esp_lcd_panel_io_tx_param]
      split
      · rfl
      · rename_i hne
        exact (not_not.mp hne).symm
    have htx : (panel_st7735s_swap_xy p w sw).2.2.tx_ret = fun k => w.tx_ret (k + 1) := by
      unfold panel_st7735s_swap_xy
      simp only [esp_lcd_panel_io_tx_param]
      split <;> rfl
    exact ⟨hret, by rw [hret], ⟨Event.tx_param LCD_CMD_MADCTL
      (some [(panel_st7735s_swap_xy p w sw).2.1.madctl_val]) 1, rfl, swap_xy_trace p w sw⟩, htx⟩
  · intro b
    have hret : (panel_st7735s_invert_color p w b).1 = w.tx_ret 0 := by
      unfold panel_st7735s_invert_color
      simp only [esp_lcd_panel_io_tx_param]
      split
      · rfl
      · rename_i hne
        exact (not_not.mp hne).symm
    have htx : (panel_st7735s_invert_color p w b).2.2.tx_ret = fun k => w.tx_ret (k + 1) := by
      unfold panel_st7735s_invert_color
      simp only [esp_lcd_panel_io_tx_param]
      split <;> rfl
    exact ⟨hret, by rw [hret], ⟨Event.tx_param (if b then LCD_CMD_INVON else LCD_CMD_INVOFF) none 0,
      rfl, (invert_color_eq p w b).2⟩, htx⟩
  · intro b
    have hret : (panel_st7735s_disp_on_off p w b).1 = w.tx_ret 0 := by
      unfold panel_st7735s_disp_on_off
      simp only [esp_lcd_panel_io_tx_param]
      split
      · rfl
      · rename_i hne
        exact (not_not.mp hne).symm
    have htx : (panel_st7735s_disp_on_off p w b).2.2.tx_ret = fun k => w.tx_ret (k + 1) := by
      unfold panel_st7735s_disp_on_off
      simp only [esp_lcd_panel_io_tx_param]
      split <;> rfl
    exact ⟨hret, by rw [hret], ⟨Event.tx_param (if b then LCD_CMD_DISPON else LCD_CMD_DISPOFF) none 0,
      rfl, (disp_on_off_eq p w b).2⟩, htx⟩

/-! ### C15 -/

/-- C15: `panel_st7735s_invert_color(true)` sends INVON and
`panel_st7735s_invert_color(false)` sends INVOFF; `panel_st7735s_disp_on_off(true)`
sends DISPON and `panel_st7735s_disp_on_off(false)` sends DISPOFF; each is one
control write with a NULL parameter buffer of size 0, and the handle is
returned unchanged in every field, whatever the transport returns. -/
theorem C15_stateless_toggles (p : st7735s_panel_t) (w : World) :
    ((panel_st7735s_invert_color p w true).2.1 = p ∧
      (panel_st7735s_invert_color p w true).2.2.trace =
        w.trace ++ [Event.tx_param LCD_CMD_INVON none 0]) ∧
    ((panel_st7735s_invert_color p w false).2.1 = p ∧
      (panel_st7735s_invert_color p w false).2.2.trace =
        w.trace ++ [Event.tx_param LCD_CMD_INVOFF none 0]) ∧
    ((panel_st7735s_disp_on_off p w true).2.1 = p ∧
      (panel_st7735s_disp_on_off p w true).2.2.trace =
        w.trace ++ [Event.tx_param LCD_CMD_DISPON none 0]) ∧
    ((panel_st7735s_disp_on_off p w false).2.1 = p ∧
      (panel_st7735s_disp_on_off p w false).2.2.trace =
        w.trace ++ [Event.tx_param LCD_CMD_DISPOFF none 0]) :=
  ⟨invert_color_eq p w true, invert_color_eq p w false,
   disp_on_off_eq p w true, disp_on_off_eq p w false⟩

/-! ### Early returns and the frame of initialisation -/

theorem init_fail0 (h : Header) (p : st7735s_panel_t) (w : World)
    (h0 : w.tx_ret 0 ≠ ESP_OK) :
    panel_st7735s_init h p w =
      some (w.tx_ret 0, p,
        { trace := w.trace ++ [Event.tx_param LCD_CMD_SLPOUT none 0],
          tx_ret := fun k => w.tx_ret (k + 1) }) := by
  simp [panel_st7735s_init, esp_lcd_panel_io_tx_param, h0]

theorem init_fail1 (h : Header) (p : st7735s_panel_t) (w : World)
    (h0 : w.tx_ret 0 = ESP_OK) (h1 : w.tx_ret 1 ≠ ESP_OK) :
    panel_st7735s_init h p w =
      some (w.tx_ret 1, p,
        { trace := w.trace ++
            [ Event.tx_param LCD_CMD_SLPOUT none 0, Event.vTaskDelay_ms 100,
              Event.tx_param LCD_CMD_MADCTL (some [p.madctl_val]) 1 ],
          tx_ret := fun k => w.tx_ret (k + 2) }) := by
  simp [panel_st7735s_init, esp_lcd_panel_io_tx_param, emit, h0, h1]

theorem init_fail2 (h : Header) (p : st7735s_panel_t) (w : World)
    (h0 : w.tx_ret 0 = ESP_OK) (h1 : w.tx_ret 1 = ESP_OK) (h2 : w.tx_ret 2 ≠ ESP_OK) :
    panel_st7735s_init h p w =
      some (w.tx_ret 2, p,
        { trace := w.trace ++ init_preamble p,
          tx_ret := fun k => w.tx_ret (k + 3) }) := by
  simp [panel_st7735s_init, esp_lcd_panel_io_tx_param, emit, h0, h1, h2, init_preamble]

/-- With a well-formed table `panel_st7735s_init` always has a result. -/
theorem init_total (h : Header) (p : st7735s_panel_t) (w : World) (ht : table_ok p) :
    ∃ r, panel_st7735s_init h p w = some r := by
  by_cases h0 : w.tx_ret 0 = ESP_OK
  · by_cases h1 : w.tx_ret 1 = ESP_OK
    · by_cases h2 : w.tx_ret 2 = ESP_OK
      · exact ⟨_, init_eq h p w ht h0 h1 h2⟩
      · exact ⟨_, init_fail2 h p w h0 h1 h2⟩
    · exact ⟨_, init_fail1 h p w h0 h1⟩
  · exact ⟨_, init_fail0 h p w h0⟩

theorem init_entry_frame (e : lcd_init_cmd_t) (s : st7735s_panel_t × World) :
    (init_entry e s).1.x_gap = s.1.x_gap ∧ (init_entry e s).1.y_gap = s.1.y_gap ∧
    (init_entry e s).1.fb_bits_per_pixel = s.1.fb_bits_per_pixel := by
  unfold init_entry
  by_cases h1 : e.cmd = LCD_CMD_MADCTL
  · simp [h1]
  · by_cases h2 : e.cmd = LCD_CMD_COLMOD
    · simp [h2, madctl_ne_colmod.symm]
    · simp [h1, h2]

theorem init_fold_frame (es : List lcd_init_cmd_t) :
    ∀ s : st7735s_panel_t × World,
      (init_fold es s).1.x_gap = s.1.x_gap ∧ (init_fold es s).1.y_gap = s.1.y_gap ∧
      (init_fold es s).1.fb_bits_per_pixel = s.1.fb_bits_per_pixel := by
  induction es with
  | nil => intro s; exact ⟨rfl, rfl, rfl⟩
  | cons e es ih =>
    intro s
    rw [init_fold_cons]
    obtain ⟨a1, a2, a3⟩ := ih (init_entry e s)
    obtain ⟨b1, b2, b3⟩ := init_entry_frame e s
    exact ⟨a1.trans b1, a2.trans b2, a3.trans b3⟩

theorem init_entry_plain (e : lcd_init_cmd_t) (s : st7735s_panel_t × World)
    (h1 : e.cmd ≠ LCD_CMD_MADCTL) (h2 : e.cmd ≠ LCD_CMD_COLMOD) :
    (init_entry e s).1 = s.1 := by
  simp [init_entry, h1, h2]

theorem init_fold_plain (es : List lcd_init_cmd_t) :
    ∀ s : st7735s_panel_t × World,
      (∀ e ∈ es, e.cmd ≠ LCD_CMD_MADCTL ∧ e.cmd ≠ LCD_CMD_COLMOD) →
      (init_fold es s).1 = s.1 := by
  induction es with
  | nil => intro s _; rfl
  | cons e es ih =>
    intro s hes
    rw [init_fold_cons, ih _ (fun e1 he1 => hes e1 (List.mem_cons_of_mem _ he1))]
    exact init_entry_plain e s (hes e (List.mem_cons_self _ _)).1
      (hes e (List.mem_cons_self _ _)).2

/-! ### C17 -/

/-- C17: for every handle with a well-formed table and every transport,
`panel_st7735s_init` has a result, and in it the gap and the frame-buffer bits
per pixel are what they were before the call, whatever the table contains; if
the handle has a custom table none of whose visited entries carries the MADCTL
or the COLMOD command, the whole handle, both shadows included, is what it was
before the call. -/
theorem C17_init_frame (h : Header) (p : st7735s_panel_t) (w : World) (ht : table_ok p) :
    ∃ r, panel_st7735s_init h p w = some r ∧
      r.2.1.x_gap = p.x_gap ∧ r.2.1.y_gap = p.y_gap ∧
      r.2.1.fb_bits_per_pixel = p.fb_bits_per_pixel ∧
      (∀ cmds, p.init_cmds = some cmds →
        (∀ e ∈ cmds.take p.init_cmds_size,
          e.cmd ≠ LCD_CMD_MADCTL ∧ e.cmd ≠ LCD_CMD_COLMOD) →
        r.2.1 = p ∧ r.2.1.madctl_val = p.madctl_val ∧ r.2.1.colmod_val = p.colmod_val) := by
  obtain ⟨r, hr⟩ := init_total h p w ht
  refine ⟨r, hr, ?_⟩
  rcases init_some_cases h p w r hr with ⟨hp, _⟩ | hfold
  · rw [hp]
    exact ⟨rfl, rfl, rfl, fun _ _ _ => ⟨rfl, rfl, rfl⟩⟩
  · subst hfold
    obtain ⟨f1, f2, f3⟩ := init_fold_frame (init_entries h p) (p, after_preamble p w)
    refine ⟨f1, f2, f3, ?_⟩
    intro cmds hc hplain
    have hp : (init_fold (init_entries h p) (p, after_preamble p w)).1 = p := by
      apply init_fold_plain
      rw [init_entries_custom h p cmds hc]
      exact hplain
    exact ⟨hp, by rw [hp], by rw [hp]⟩

/-- C17 on `plain_table` (no orientation or colour-mode entry) with gap (2, 3):
the handle comes back unchanged; and on `custom_table`, where the shadows
change, gap and bits per pixel still come back unchanged. -/
theorem C17_init_frame_witness :
    table_ok panel_plain ∧
    (∃ r, panel_st7735s_init st7735s_header panel_plain world_entries_fail = some r ∧
      r.2.1.x_gap = panel_plain.x_gap ∧ r.2.1.y_gap = panel_plain.y_gap ∧
      r.2.1.fb_bits_per_pixel = panel_plain.fb_bits_per_pixel ∧
      (∀ cmds, panel_plain.init_cmds = some cmds →
        (∀ e ∈ cmds.take panel_plain.init_cmds_size,
          e.cmd ≠ LCD_CMD_MADCTL ∧ e.cmd ≠ LCD_CMD_COLMOD) →
        r.2.1 = panel_plain ∧ r.2.1.madctl_val = panel_plain.madctl_val ∧
          r.2.1.colmod_val = panel_plain.colmod_val)) ∧
    (∀ e ∈ plain_table.take panel_plain.init_cmds_size,
      e.cmd ≠ LCD_CMD_MADCTL ∧ e.cmd ≠ LCD_CMD_COLMOD) ∧
    (panel_st7735s_init st7735s_header panel_plain world_entries_fail).map (fun r => r.2.1) =
      some panel_plain ∧
    (panel_st7735s_init st7735s_header panel_custom world_ok).map
        (fun r => (r.2.1.x_gap, r.2.1.y_gap, r.2.1.fb_bits_per_pixel, r.2.1.madctl_val,
          r.2.1.colmod_val)) =
      some (0, 0, 16, 0xC8, 0x06) :=
  ⟨table_ok_custom panel_plain plain_table rfl (by decide),
   C17_init_frame st7735s_header panel_plain world_entries_fail
     (table_ok_custom panel_plain plain_table rfl (by decide)),
   by decide, by decide, by decide⟩

/-! ### C16 -/

/-- C16, the code on the built-in table: for every value of the header macros,
the sizes of the control writes `panel_st7735s_init` makes after its preamble
on a handle without custom table are the `data_bytes` fields of all 19 entries
as they stand: 0x80 for the first two entries, the delay marker
`TFT_INIT_DELAY` for entries 17 and 18, and 0xFF for the last entry, each passed
with a `data` array of 16 bytes. -/
theorem C16_init_default_write_sizes (h : Header) :
    (panel_st7735s_init h panel_rgb16 world_ok).map
        (fun r => (r.2.2.trace.drop 4).filterMap control_write_size) =
      some [0x80, 0x80, 3, 3, 6, 1, 3, 1, 2, 2, 2, 1, 0, 1, 16, 16,
            h.TFT_INIT_DELAY % 256, h.TFT_INIT_DELAY % 256, 0xFF] ∧
    ¬ ((0x80 : Nat) ≤ 16) ∧ ¬ ((0xFF : Nat) ≤ 16) := by
  refine ⟨?_, by decide, by decide⟩
  rw [init_eq h panel_rgb16 world_ok (table_ok_default _ rfl) rfl rfl rfl]
  simp only [Option.map_some', init_fold_trace, after_preamble_trace]
  rfl

/-! ### C19 -/

theorem default_colmod_last (h : Header)
    (hcol : h.ST7735_COLMOD % 256 = LCD_CMD_COLMOD)
    (hg1 : h.ST7735_GMCTRP1 % 256 ≠ LCD_CMD_COLMOD)
    (hg2 : h.ST7735_GMCTRN1 % 256 ≠ LCD_CMD_COLMOD)
    (hno : h.ST7735_NORON % 256 ≠ LCD_CMD_COLMOD)
    (hdo : h.ST7735_DISPON % 256 ≠ LCD_CMD_COLMOD) :
    ((vendor_specific_init_default h).filter
        (fun e => decide (e.cmd = LCD_CMD_COLMOD))).getLast? =
      some { cmd := h.ST7735_COLMOD % 256, data := [0x05], data_bytes := 1 } := by
  have hD : vendor_specific_init_default h =
      (vendor_specific_init_default h).take 13 ++
        [ { cmd := h.ST7735_COLMOD % 256, data := [0x05], data_bytes := 1 },
          { cmd := h.ST7735_GMCTRP1 % 256,
            data := [0x10, 0x0E, 0x02, 0x03, 0x0E, 0x07, 0x02, 0x07,
                     0x0A, 0x12, 0x27, 0x37, 0x00, 0x0D, 0x0E, 0x10],
            data_bytes := 16 },
          { cmd := h.ST7735_GMCTRN1 % 256,
            data := [0x10, 0x0E, 0x03, 0x03, 0x0F, 0x06, 0x02, 0x08,
                     0x0A, 0x13, 0x26, 0x36, 0x00, 0x0D, 0x0E, 0x10],
            data_bytes := 16 },
          { cmd := h.ST7735_NORON % 256, data := [0], data_bytes := h.TFT_INIT_DELAY % 256 },
          { cmd := h.ST7735_DISPON % 256, data := [0], data_bytes := h.TFT_INIT_DELAY % 256 },
          { cmd := 0, data := [0], data_bytes := 0xff } ] := rfl
  have h0 : (0 : Nat) ≠ LCD_CMD_COLMOD := by decide
  rw [hD, List.filter_append]
  have hpost : List.filter (fun e : lcd_init_cmd_t => decide (e.cmd = LCD_CMD_COLMOD))
        [ { cmd := h.ST7735_COLMOD % 256, data := [0x05], data_bytes := 1 },
          { cmd := h.ST7735_GMCTRP1 % 256,
            data := [0x10, 0x0E, 0x02, 0x03, 0x0E, 0x07, 0x02, 0x07,
                     0x0A, 0x12, 0x27, 0x37, 0x00, 0x0D, 0x0E, 0x10],
            data_bytes := 16 },
          { cmd := h.ST7735_GMCTRN1 % 256,
            data := [0x10, 0x0E, 0x03, 0x03, 0x0F, 0x06, 0x02, 0x08,
                     0x0A, 0x13, 0x26, 0x36, 0x00, 0x0D, 0x0E, 0x10],
            data_bytes := 16 },
          { cmd := h.ST7735_NORON % 256, data := [0], data_bytes := h.TFT_INIT_DELAY % 256 },
          { cmd := h.ST7735_DISPON % 256, data := [0], data_bytes := h.TFT_INIT_DELAY % 256 },
          { cmd := 0, data := [0], data_bytes := 0xff } ] =
      [ { cmd := h.ST7735_COLMOD % 256, data := [0x05], data_bytes := 1 } ] := by
    simp [List.filter_cons, hcol, hg1, hg2, hno, hdo, h0]
  rw [hpost, List.getLast?_concat]

/-- C19: for every handle without custom table (whatever bit depth it was
created with) and every transport that accepts the three preamble writes,
provided the header gives the colour-mode entry of the built-in table the
COLMOD command code and gives none of the four entries after it that code,
`panel_st7735s_init` returns ESP_OK with colour-mode shadow 0x05, the first
data byte of that entry, and with the frame-buffer bits per pixel unchanged. -/
theorem C19_init_default_colmod (h : Header) (p : st7735s_panel_t) (w : World)
    (hc : p.init_cmds = none)
    (h0 : w.tx_ret 0 = ESP_OK) (h1 : w.tx_ret 1 = ESP_OK) (h2 : w.tx_ret 2 = ESP_OK)
    (hcol : h.ST7735_COLMOD % 256 = LCD_CMD_COLMOD)
    (hg1 : h.ST7735_GMCTRP1 % 256 ≠ LCD_CMD_COLMOD)
    (hg2 : h.ST7735_GMCTRN1 % 256 ≠ LCD_CMD_COLMOD)
    (hno : h.ST7735_NORON % 256 ≠ LCD_CMD_COLMOD)
    (hdo : h.ST7735_DISPON % 256 ≠ LCD_CMD_COLMOD) :
    ∃ r, panel_st7735s_init h p w = some r ∧ r.1 = ESP_OK ∧
      r.2.1.colmod_val = 0x05 ∧ r.2.1.fb_bits_per_pixel = p.fb_bits_per_pixel := by
  refine ⟨_, init_eq h p w (table_ok_default p hc) h0 h1 h2, rfl, ?_,
    (init_fold_frame _ _).2.2⟩
  have he : init_entries h p = vendor_specific_init_default h := by
    simp [init_entries, hc]
  simp only []
  rw [init_fold_colmod, he, default_colmod_last h hcol hg1 hg2 hno hdo]
  rfl

/-- C19 with the datasheet command codes, on the 16-bit handle (colour mode
0x55 before the call) and on the 18-bit handle (0x66 before the call): both end
with colour-mode shadow 0x05 and keep 16 and 24 bits per pixel. -/
theorem C19_init_default_colmod_witness :
    panel_bgr18.init_cmds = none ∧
    world_ok.tx_ret 0 = ESP_OK ∧ world_ok.tx_ret 1 = ESP_OK ∧ world_ok.tx_ret 2 = ESP_OK ∧
    st7735s_header.ST7735_COLMOD % 256 = LCD_CMD_COLMOD ∧
    st7735s_header.ST7735_GMCTRP1 % 256 ≠ LCD_CMD_COLMOD ∧
    st7735s_header.ST7735_GMCTRN1 % 256 ≠ LCD_CMD_COLMOD ∧
    st7735s_header.ST7735_NORON % 256 ≠ LCD_CMD_COLMOD ∧
    st7735s_header.ST7735_DISPON % 256 ≠ LCD_CMD_COLMOD ∧
    (∃ r, panel_st7735s_init st7735s_header panel_bgr18 world_ok = some r ∧ r.1 = ESP_OK ∧
      r.2.1.colmod_val = 0x05 ∧ r.2.1.fb_bits_per_pixel = panel_bgr18.fb_bits_per_pixel) ∧
    (panel_st7735s_init st7735s_header panel_bgr18 world_ok).map
        (fun r => (r.1, r.2.1.colmod_val, r.2.1.fb_bits_per_pixel)) = some (ESP_OK, 0x05, 24) ∧
    (panel_st7735s_init st7735s_header panel_rgb16 world_ok).map
        (fun r => (r.1, r.2.1.colmod_val, r.2.1.fb_bits_per_pixel)) = some (ESP_OK, 0x05, 16) :=
  ⟨rfl, rfl, rfl, rfl, by decide, by decide, by decide, by decide, by decide,
   C19_init_default_colmod st7735s_header panel_bgr18 world_ok rfl rfl rfl rfl
     (by decide) (by decide) (by decide) (by decide) (by decide),
   by decide, by decide⟩

/-! ### C20 -/

theorem u8_land_of_byte (z : Int) (h0 : 0 ≤ z) (h1 : z ≤ 255) :
    u8 (Int.land z 0xFF) = z.toNat := by
  obtain ⟨m, rfl⟩ := Int.eq_ofNat_of_zero_le h0
  have hland : Int.land (m : Int) 0xFF = ((m &&& 255 : Nat) : Int) := rfl
  have hm : m ≤ 255 := by omega
  have hand : m &&& 255 = m := by
    have := Nat.and_pow_two_sub_one_eq_mod m 8
    norm_num at this
    rw [this]
    omega
  rw [hland, hand]
  unfold u8
  omega

theorem u8_land_shift_of_byte (z : Int) (h0 : 0 ≤ z) (h1 : z ≤ 255) :
    u8 (Int.land (z >>> 8) 0xFF) = 0 := by
  obtain ⟨m, rfl⟩ := Int.eq_ofNat_of_zero_le h0
  have hshift : ((m : Int) >>> 8) = ((m >>> 8 : Nat) : Int) := rfl
  have hm : m ≤ 255 := by omega
  have hz : m >>> 8 = 0 := by
    rw [Nat.shiftRight_eq_div_pow]
    omega
  rw [hshift, hz]
  rfl

/-- C20: for every rectangle with `x_start < x_end`, `y_start < y_end` and every
gap, `panel_st7735s_draw_bitmap` makes its CASET and RASET writes with four
bytes each such that: if `COLSTART >= 0`, `0 <= x_start + x_gap` and
`x_end - 1 + x_gap + COLSTART <= 255`, the four CASET bytes, read as two
big-endian 16-bit values, are `x_start + x_gap + COLSTART` and
`x_end - 1 + x_gap + COLSTART`, the first not above the second, whatever the
rows are; and if `ROWSTART >= 0`, `0 <= y_start + y_gap` and
`y_end - 1 + y_gap + ROWSTART <= 255`, the four RASET bytes are
`y_start + y_gap + ROWSTART` and `y_end - 1 + y_gap + ROWSTART` in the same way,
whatever the columns are. -/
theorem C20_draw_window_big_endian (h : Header) (p : st7735s_panel_t) (w : World)
    (xs ys xe ye : Int) (c : List Nat) (hx : xs < xe) (hy : ys < ye) :
    ∃ w1 a0 a1 a2 a3 b0 b1 b2 b3 len,
      panel_st7735s_draw_bitmap h p w xs ys xe ye c = some (ESP_OK, p, w1) ∧
      w1.trace = w.trace ++
        [ Event.tx_param LCD_CMD_CASET (some [a0, a1, a2, a3]) 4,
          Event.tx_param LCD_CMD_RASET (some [b0, b1, b2, b3]) 4,
          Event.tx_color LCD_CMD_RAMWR c len ] ∧
      (0 ≤ h.COLSTART → 0 ≤ xs + p.x_gap → xe - 1 + p.x_gap + h.COLSTART ≤ 255 →
        ((be16 a0 a1 : Nat) : Int) = xs + p.x_gap + h.COLSTART ∧
        ((be16 a2 a3 : Nat) : Int) = xe - 1 + p.x_gap + h.COLSTART ∧
        be16 a0 a1 ≤ be16 a2 a3) ∧
      (0 ≤ h.ROWSTART → 0 ≤ ys + p.y_gap → ye - 1 + p.y_gap + h.ROWSTART ≤ 255 →
        ((be16 b0 b1 : Nat) : Int) = ys + p.y_gap + h.ROWSTART ∧
        ((be16 b2 b3 : Nat) : Int) = ye - 1 + p.y_gap + h.ROWSTART ∧
        be16 b0 b1 ≤ be16 b2 b3) := by
  refine ⟨_, u8 (Int.land ((xs + p.x_gap) >>> 8) 0xFF),
    u8 (Int.land (xs + p.x_gap + h.COLSTART) 0xFF),
    u8 (Int.land ((xe + p.x_gap - 1) >>> 8) 0xFF),
    u8 (Int.land (xe + p.x_gap - 1 + h.COLSTART) 0xFF),
    u8 (Int.land ((ys + p.y_gap) >>> 8) 0xFF),
    u8 (Int.land (ys + p.y_gap + h.ROWSTART) 0xFF),
    u8 (Int.land ((ye + p.y_gap - 1) >>> 8) 0xFF),
    u8 (Int.land (ye + p.y_gap - 1 + h.ROWSTART) 0xFF), _,
    draw_bitmap_eq h p w xs ys xe ye c hx hy, rfl, ?_, ?_⟩
  · intro hc hx0 hx1
    have a0 := u8_land_shift_of_byte (xs + p.x_gap) hx0 (by omega)
    have a1 := u8_land_of_byte (xs + p.x_gap + h.COLSTART) (by omega) (by omega)
    have a2 := u8_land_shift_of_byte (xe + p.x_gap - 1) (by omega) (by omega)
    have a3 := u8_land_of_byte (xe + p.x_gap - 1 + h.COLSTART) (by omega) (by omega)
    simp only [a0, a1, a2, a3, be16]
    omega
  · intro hr hy0 hy1
    have b0 := u8_land_shift_of_byte (ys + p.y_gap) hy0 (by omega)
    have b1 := u8_land_of_byte (ys + p.y_gap + h.ROWSTART) (by omega) (by omega)
    have b2 := u8_land_shift_of_byte (ye + p.y_gap - 1) (by omega) (by omega)
    have b3 := u8_land_of_byte (ye + p.y_gap - 1 + h.ROWSTART) (by omega) (by omega)
    simp only [b0, b1, b2, b3, be16]
    omega

/-- C20 at the rectangle (10, 300, 20, 310) with gap (2, 3), COLSTART 26 and
ROWSTART 1, where the column conditions hold and the row conditions do not:
the column bytes 0, 38, 0, 47 read 38 = 10 + 2 + 26 and 47 = 20 - 1 + 2 + 26. -/
theorem C20_draw_window_big_endian_witness :
    ((10 : Int) < 20) ∧ ((300 : Int) < 310) ∧
    (0 ≤ st7735s_header.COLSTART ∧ 0 ≤ (10 : Int) + panel_gap.x_gap ∧
      (20 : Int) - 1 + panel_gap.x_gap + st7735s_header.COLSTART ≤ 255) ∧
    ¬ ((310 : Int) - 1 + panel_gap.y_gap + st7735s_header.ROWSTART ≤ 255) ∧
    (∃ w1 a0 a1 a2 a3 b0 b1 b2 b3 len,
      panel_st7735s_draw_bitmap st7735s_header panel_gap world_ok 10 300 20 310 [] =
        some (ESP_OK, panel_gap, w1) ∧
      w1.trace = world_ok.trace ++
        [ Event.tx_param LCD_CMD_CASET (some [a0, a1, a2, a3]) 4,
          Event.tx_param LCD_CMD_RASET (some [b0, b1, b2, b3]) 4,
          Event.tx_color LCD_CMD_RAMWR [] len ] ∧
      (0 ≤ st7735s_header.COLSTART → 0 ≤ (10 : Int) + panel_gap.x_gap →
          (20 : Int) - 1 + panel_gap.x_gap + st7735s_header.COLSTART ≤ 255 →
        ((be16 a0 a1 : Nat) : Int) = 10 + panel_gap.x_gap + st7735s_header.COLSTART ∧
        ((be16 a2 a3 : Nat) : Int) = 20 - 1 + panel_gap.x_gap + st7735s_header.COLSTART ∧
        be16 a0 a1 ≤ be16 a2 a3) ∧
      (0 ≤ st7735s_header.ROWSTART → 0 ≤ (300 : Int) + panel_gap.y_gap →
          (310 : Int) - 1 + panel_gap.y_gap + st7735s_header.ROWSTART ≤ 255 →
        ((be16 b0 b1 : Nat) : Int) = 300 + panel_gap.y_gap + st7735s_header.ROWSTART ∧
        ((be16 b2 b3 : Nat) : Int) = 310 - 1 + panel_gap.y_gap + st7735s_header.ROWSTART ∧
        be16 b0 b1 ≤ be16 b2 b3)) ∧
    (panel_st7735s_draw_bitmap st7735s_header panel_gap world_ok 10 300 20 310 []).map
        (fun r => r.2.2.trace) =
      some [ Event.tx_param LCD_CMD_CASET (some [0, 38, 0, 47]) 4,
             Event.tx_param LCD_CMD_RASET (some [1, 48, 1, 57]) 4,
             Event.tx_color LCD_CMD_RAMWR [] 200 ] ∧
    (be16 0 38, be16 0 47) = (38, 47) :=
  ⟨by decide, by decide, ⟨by decide, by decide, by decide⟩, by decide,
   C20_draw_window_big_endian st7735s_header panel_gap world_ok 10 300 20 310 []
     (by decide) (by decide),
   by decide, by decide⟩

/-! ### C21 -/

/-- C21: `panel_st7735s_init` is fail-fast on its preamble, for every handle and
table. If the sleep-out write is rejected, it returns the return code of that
write and the trace grows by that write alone. If sleep-out is accepted and the
orientation write is rejected, it returns the return code of the orientation
write and the trace grows by sleep-out, the 100 ms delay and the orientation
write. If both are accepted and the colour-mode write is rejected, it returns
the return code of the colour-mode write and the trace grows by the preamble
alone. In each case no init-table entry is written, no further transport
return code is consumed, and the handle, both shadows included, is unchanged. -/
theorem C21_init_preamble_fail_fast (h : Header) (p : st7735s_panel_t) (w : World) :
    (w.tx_ret 0 ≠ ESP_OK →
      ∃ w1, panel_st7735s_init h p w = some (w.tx_ret 0, p, w1) ∧
        w1.trace = w.trace ++ [Event.tx_param LCD_CMD_SLPOUT none 0] ∧
        w1.tx_ret = fun k => w.tx_ret (k + 1)) ∧
    (w.tx_ret 0 = ESP_OK → w.tx_ret 1 ≠ ESP_OK →
      ∃ w1, panel_st7735s_init h p w = some (w.tx_ret 1, p, w1) ∧
        w1.trace = w.trace ++
          [ Event.tx_param LCD_CMD_SLPOUT none 0, Event.vTaskDelay_ms 100,
            Event.tx_param LCD_CMD_MADCTL (some [p.madctl_val]) 1 ] ∧
        w1.tx_ret = fun k => w.tx_ret (k + 2)) ∧
    (w.tx_ret 0 = ESP_OK → w.tx_ret 1 = ESP_OK → w.tx_ret 2 ≠ ESP_OK →
      ∃ w1, panel_st7735s_init h p w = some (w.tx_ret 2, p, w1) ∧
        w1.trace = w.trace ++
          [ Event.tx_param LCD_CMD_SLPOUT none 0, Event.vTaskDelay_ms 100,
            Event.tx_param LCD_CMD_MADCTL (some [p.madctl_val]) 1,
            Event.tx_param LCD_CMD_COLMOD (some [p.colmod_val]) 1 ] ∧
        w1.tx_ret = fun k => w.tx_ret (k + 3)) :=
  ⟨fun h0 => ⟨_, init_fail0 h p w h0, rfl, rfl⟩,
   fun h0 h1 => ⟨_, init_fail1 h p w h0 h1, rfl, rfl⟩,
   fun h0 h1 h2 => ⟨_, init_fail2 h p w h0 h1 h2, rfl, rfl⟩⟩

/-- C21 on the handle with `custom_table` (which holds orientation and
colour-mode entries): with the first, the second or the third write rejected,
the call returns -1, sends nothing after the rejected write and leaves the
shadows at 0 and 0x55. -/
theorem C21_init_preamble_fail_fast_witness :
    world_fail.tx_ret 0 ≠ ESP_OK ∧
    (world_madctl_fail.tx_ret 0 = ESP_OK ∧ world_madctl_fail.tx_ret 1 ≠ ESP_OK) ∧
    (world_colmod_fail.tx_ret 0 = ESP_OK ∧ world_colmod_fail.tx_ret 1 = ESP_OK ∧
      world_colmod_fail.tx_ret 2 ≠ ESP_OK) ∧
    (∃ w1, panel_st7735s_init st7735s_header panel_custom world_fail =
        some (world_fail.tx_ret 0, panel_custom, w1) ∧
      w1.trace = world_fail.trace ++ [Event.tx_param LCD_CMD_SLPOUT none 0] ∧
      w1.tx_ret = fun k => world_fail.tx_ret (k + 1)) ∧
    (∃ w1, panel_st7735s_init st7735s_header panel_custom world_madctl_fail =
        some (world_madctl_fail.tx_ret 1, panel_custom, w1) ∧
      w1.trace = world_madctl_fail.trace ++
        [ Event.tx_param LCD_CMD_SLPOUT none 0, Event.vTaskDelay_ms 100,
          Event.tx_param LCD_CMD_MADCTL (some [panel_custom.madctl_val]) 1 ] ∧
      w1.tx_ret = fun k => world_madctl_fail.tx_ret (k + 2)) ∧
    (∃ w1, panel_st7735s_init st7735s_header panel_custom world_colmod_fail =
        some (world_colmod_fail.tx_ret 2, panel_custom, w1) ∧
      w1.trace = world_colmod_fail.trace ++
        [ Event.tx_param LCD_CMD_SLPOUT none 0, Event.vTaskDelay_ms 100,
          Event.tx_param LCD_CMD_MADCTL (some [panel_custom.madctl_val]) 1,
          Event.tx_param LCD_CMD_COLMOD (some [panel_custom.colmod_val]) 1 ] ∧
      w1.tx_ret = fun k => world_colmod_fail.tx_ret (k + 3)) ∧
    (panel_st7735s_init st7735s_header panel_custom world_colmod_fail).map
        (fun r => (r.1, r.2.1.madctl_val, r.2.1.colmod_val, r.2.2.trace)) =
      some (-1, 0, 0x55,
        [ Event.tx_param 0x11 none 0, Event.vTaskDelay_ms 100,
          Event.tx_param 0x36 (some [0]) 1, Event.tx_param 0x3A (some [0x55]) 1 ]) :=
  ⟨by decide, ⟨rfl, by decide⟩, ⟨rfl, rfl, by decide⟩,
   (C21_init_preamble_fail_fast st7735s_header panel_custom world_fail).1 (by decide),
   (C21_init_preamble_fail_fast st7735s_header panel_custom world_madctl_fail).2.1 rfl
     (by decide),
   (C21_init_preamble_fail_fast st7735s_header panel_custom world_colmod_fail).2.2 rfl rfl
     (by decide),
   by decide⟩

end St7735s
